import Mathlib

/-!
# espStandingDesk: motor controller (`src/controller.cpp`)

A shallow embedding of the controller sketch.  The global variables of the sketch
(`motorState`, `motorDirection`, `rampStartTime`, `btnUpActive`, `btnDownActive`) become
fields of one record, together with what the hardware holds: the levels of the two
H-bridge direction pins, the duty cycle of the PWM channel, the bytes waiting on the
Bluetooth stream and the trace of all actuator writes performed so far.

Machine integers are natural numbers / integers with explicit reduction modulo `2 ^ 32`
(`unsigned long` and `long` are 32 bits wide on the ESP32).  `Serial.println` only logs
and is left out.  Every function that reads the clock takes the true time in
milliseconds since boot as an argument; `millis` reduces it to the 32-bit counter.
-/

namespace Desk

/-- The enumeration `enum MotorState { STOPPED, RAMPING, RUNNING }`. -/
inductive MotorState
  | STOPPED
  | RAMPING
  | RUNNING
  deriving DecidableEq, Repr

/-- The enumeration `enum MotorDirection { FORWARD, BACKWARD }`. -/
inductive MotorDirection
  | FORWARD
  | BACKWARD
  deriving DecidableEq, Repr

/-- Logic level `HIGH` of a digital pin. -/
abbrev HIGH : Bool := true

/-- Logic level `LOW` of a digital pin. -/
abbrev LOW : Bool := false

/-- The constant `const int MAX_DUTY_CYCLE = 255;` -/
def MAX_DUTY_CYCLE : Int := 255

/-- The constant `const unsigned int RAMP_DURATION = 1000;` -/
def RAMP_DURATION : Nat := 1000

/-- One write to the actuator: `digitalWrite(motor1Pin1, v)`, `digitalWrite(motor1Pin2, v)`
or `ledcWrite(PWM_CHANNEL, v)`. -/
inductive ActuatorWrite
  | pin1 (level : Bool)
  | pin2 (level : Bool)
  | duty (value : Nat)
  deriving DecidableEq, Repr

/-- The globals of the sketch and the state of the hardware it drives. -/
structure Controller where
  motorState : MotorState
  motorDirection : MotorDirection
  rampStartTime : Nat
  btnUpActive : Bool
  btnDownActive : Bool
  /-- level of output pin `motor1Pin1` (IN1 of the H-bridge) -/
  motor1Pin1 : Bool
  /-- level of output pin `motor1Pin2` (IN2 of the H-bridge) -/
  motor1Pin2 : Bool
  /-- duty cycle of `PWM_CHANNEL` -/
  duty : Nat
  /-- all actuator writes so far, oldest first -/
  writes : List ActuatorWrite
  /-- bytes waiting in `SerialBT`, oldest first -/
  stream : List Nat
  deriving DecidableEq, Repr

/-- The 32-bit millisecond counter `millis()` at true time `now`. -/
def millis (now : Nat) : Nat := now % 2 ^ 32

/-- Reduction of an integer to the range of a 32-bit `long`. -/
def wrapLong (z : Int) : Int := (z + 2 ^ 31) % 2 ^ 32 - 2 ^ 31

/-- Modelled from the spec: the Arduino core function `map` is not part of the repository.
The spec gives `duty = floor(elapsed * MAX_DUTY / RAMP_DURATION)`; this is the Arduino
reference definition `(x - in_min) * (out_max - out_min) / (in_max - in_min) + out_min`
in 32-bit `long` arithmetic with truncating division (and `-1` for an empty input range). -/
def map (x in_min in_max out_min out_max : Int) : Int :=
  let run := wrapLong (in_max - in_min)
  if run = 0 then -1
  else
    let rise := wrapLong (out_max - out_min)
    let delta := wrapLong (x - in_min)
    wrapLong (wrapLong (Int.tdiv (wrapLong (delta * rise)) run) + out_min)

/-- The call `digitalWrite(motor1Pin1, v)`. -/
def digitalWritePin1 (v : Bool) (s : Controller) : Controller :=
  { s with motor1Pin1 := v, writes := s.writes ++ [ActuatorWrite.pin1 v] }

/-- The call `digitalWrite(motor1Pin2, v)`. -/
def digitalWritePin2 (v : Bool) (s : Controller) : Controller :=
  { s with motor1Pin2 := v, writes := s.writes ++ [ActuatorWrite.pin2 v] }

/-- The call `ledcWrite(PWM_CHANNEL, v)`; the argument is converted to `uint32_t`. -/
def ledcWrite (v : Int) (s : Controller) : Controller :=
  { s with duty := (v % 2 ^ 32).toNat,
           writes := s.writes ++ [ActuatorWrite.duty (v % 2 ^ 32).toNat] }

/-- State at reset: zero-initialised globals, outputs low, nothing received. -/
def boot : Controller :=
  { motorState := MotorState.STOPPED
    motorDirection := MotorDirection.FORWARD
    rampStartTime := 0
    btnUpActive := false
    btnDownActive := false
    motor1Pin1 := LOW
    motor1Pin2 := LOW
    duty := 0
    writes := []
    stream := [] }

/-- The function `setup()`: the one actuator write is `ledcWrite(PWM_CHANNEL, 0)`. -/
def setup (s : Controller) : Controller := ledcWrite 0 s

/-- The state in which `loop()` runs for the first time. -/
def powerOn : Controller := setup boot

/-- The function `startMotor(dir)`, the clock showing true time `now`. -/
def startMotor (dir : MotorDirection) (now : Nat) (s : Controller) : Controller :=
  if s.motorState = MotorState.STOPPED then
    let s1 := { s with motorDirection := dir,
                       motorState := MotorState.RAMPING,
                       rampStartTime := millis now }
    if dir = MotorDirection.FORWARD then
      digitalWritePin2 LOW (digitalWritePin1 HIGH s1)
    else
      digitalWritePin2 HIGH (digitalWritePin1 LOW s1)
  else s

/-- The function `stopMotor()`. -/
def stopMotor (s : Controller) : Controller :=
  if s.motorState ≠ MotorState.STOPPED then
    ledcWrite 0
      (digitalWritePin2 LOW
        (digitalWritePin1 LOW { s with motorState := MotorState.STOPPED }))
  else s

/-- The levels returned by the `digitalRead` calls of one `handlePhysicalButtons()`:
each button is read in the `if` and, when that branch is not taken, again in the
`else if`. -/
structure ButtonReads where
  up1 : Bool
  up2 : Bool
  down1 : Bool
  down2 : Bool
  deriving DecidableEq, Repr

/-- Reads of two buttons whose levels do not change during the poll. -/
def ButtonReads.stable (u d : Bool) : ButtonReads :=
  { up1 := u, up2 := u, down1 := d, down2 := d }

/-- The function `handlePhysicalButtons()`; `tUp` and `tDown` are the clock values a `startMotor`
call of the first, respectively second, button check would see. -/
def handlePhysicalButtons (r : ButtonReads) (tUp tDown : Nat) (s : Controller) :
    Controller :=
  let s1 :=
    if r.up1 && !s.btnUpActive then
      startMotor MotorDirection.FORWARD tUp { s with btnUpActive := true }
    else if !r.up2 && s.btnUpActive then
      stopMotor { s with btnUpActive := false }
    else s
  if r.down1 && !s1.btnDownActive then
    startMotor MotorDirection.BACKWARD tDown { s1 with btnDownActive := true }
  else if !r.down2 && s1.btnDownActive then
    stopMotor { s1 with btnDownActive := false }
  else s1

/-- The function `handleBluetoothCommands()`: `SerialBT.available()` holds when a byte is waiting,
`SerialBT.read()` removes the oldest one; 70/102 are `'F'`/`'f'`, 66/98 are `'B'`/`'b'`,
83/115 are `'S'`/`'s'`. -/
def handleBluetoothCommands (now : Nat) (s : Controller) : Controller :=
  match s.stream with
  | [] => s
  | b :: rest =>
    let s1 := { s with stream := rest }
    let cmd := b % 256
    if cmd = 70 ∨ cmd = 102 then startMotor MotorDirection.FORWARD now s1
    else if cmd = 66 ∨ cmd = 98 then startMotor MotorDirection.BACKWARD now s1
    else if cmd = 83 ∨ cmd = 115 then stopMotor s1
    else s1

/-- The value `elapsedTime = millis() - rampStartTime` in 32-bit unsigned arithmetic. -/
def elapsedTime (now : Nat) (s : Controller) : Nat :=
  (millis now + 2 ^ 32 - s.rampStartTime % 2 ^ 32) % 2 ^ 32

/-- The function `updateMotor()`, the clock showing true time `now`. -/
def updateMotor (now : Nat) (s : Controller) : Controller :=
  if s.motorState = MotorState.RAMPING then
    if elapsedTime now s ≥ RAMP_DURATION then
      { ledcWrite MAX_DUTY_CYCLE s with motorState := MotorState.RUNNING }
    else
      let dutyCycle := map (wrapLong (elapsedTime now s)) 0 RAMP_DURATION 0 MAX_DUTY_CYCLE
      ledcWrite (wrapLong dutyCycle) s
  else s

/-- What the environment supplies to one iteration of `loop()`: the bytes that arrived on
the stream since the previous iteration, the button levels read, and the clock values
seen by the calls that read the clock. -/
structure LoopInput where
  arrived : List Nat
  reads : ButtonReads
  tCmd : Nat
  tUp : Nat
  tDown : Nat
  tTick : Nat
  deriving DecidableEq, Repr

/-- Bytes arriving on the Bluetooth stream are queued behind those already waiting. -/
def receive (bytes : List Nat) (s : Controller) : Controller :=
  { s with stream := s.stream ++ bytes }

/-- The function `loop()`: stream command, then buttons, then one ramp tick. -/
def loop (i : LoopInput) (s : Controller) : Controller :=
  updateMotor i.tTick
    (handlePhysicalButtons i.reads i.tUp i.tDown
      (handleBluetoothCommands i.tCmd (receive i.arrived s)))

/-- The controller after a sequence of `loop()` iterations. -/
def runLoop (s : Controller) (is : List LoopInput) : Controller :=
  is.foldl (fun s i => loop i s) s

/-- A call of one of the functions of the sketch, or the arrival of bytes. -/
inductive Call
  | startMotor (dir : MotorDirection) (now : Nat)
  | stopMotor
  | handlePhysicalButtons (r : ButtonReads) (tUp tDown : Nat)
  | handleBluetoothCommands (now : Nat)
  | updateMotor (now : Nat)
  | receive (bytes : List Nat)
  deriving DecidableEq, Repr

/-- Effect of one call. -/
def Call.apply (c : Call) (s : Controller) : Controller :=
  match c with
  | Call.startMotor dir now => Desk.startMotor dir now s
  | Call.stopMotor => Desk.stopMotor s
  | Call.handlePhysicalButtons r tUp tDown => Desk.handlePhysicalButtons r tUp tDown s
  | Call.handleBluetoothCommands now => Desk.handleBluetoothCommands now s
  | Call.updateMotor now => Desk.updateMotor now s
  | Call.receive bytes => Desk.receive bytes s

/-- The controller after a sequence of calls. -/
def runCalls (s : Controller) (cs : List Call) : Controller :=
  cs.foldl (fun s c => c.apply s) s

/-- The three events of the motor state machine. -/
inductive MotorEvent
  | start (dir : MotorDirection) (now : Nat)
  | stop
  | tick (now : Nat)
  deriving DecidableEq, Repr

/-- Effect of one motor event. -/
def MotorEvent.apply (e : MotorEvent) (s : Controller) : Controller :=
  match e with
  | MotorEvent.start dir now => startMotor dir now s
  | MotorEvent.stop => stopMotor s
  | MotorEvent.tick now => updateMotor now s

/-- The controller after a sequence of motor events. -/
def runEvents (s : Controller) (es : List MotorEvent) : Controller :=
  es.foldl (fun s e => e.apply s) s

/-- The controller after `updateMotor()` calls at the given times, in order. -/
def ticks (s : Controller) (ts : List Nat) : Controller :=
  ts.foldl (fun s t => updateMotor t s) s

/-- Effect of one actuator write on the levels of the two direction pins. -/
def pinsAfter (p : Bool × Bool) (w : ActuatorWrite) : Bool × Bool :=
  match w with
  | ActuatorWrite.pin1 v => (v, p.2)
  | ActuatorWrite.pin2 v => (p.1, v)
  | ActuatorWrite.duty _ => p

/-- Levels of the two direction pins after a trace of writes, both low at reset. -/
def pinsReplay (ws : List ActuatorWrite) : Bool × Bool :=
  ws.foldl pinsAfter (LOW, LOW)

/-- The pin levels that encode a direction: `(HIGH, LOW)` forward, `(LOW, HIGH)` backward. -/
def dirPins (d : MotorDirection) : Bool × Bool :=
  match d with
  | MotorDirection.FORWARD => (HIGH, LOW)
  | MotorDirection.BACKWARD => (LOW, HIGH)

/-- The invariant of the controller: how pins and duty cycle follow the motor state, and
that the pins were never both high at any point of the write trace. -/
structure Inv (s : Controller) : Prop where
  stopped : s.motorState = MotorState.STOPPED → s.motor1Pin1 = LOW ∧ s.motor1Pin2 = LOW ∧ s.duty = 0
  moving : s.motorState ≠ MotorState.STOPPED → (s.motor1Pin1, s.motor1Pin2) = dirPins s.motorDirection
  ramping : s.motorState = MotorState.RAMPING → s.duty < 255
  running : s.motorState = MotorState.RUNNING → s.duty = 255
  replay : pinsReplay s.writes = (s.motor1Pin1, s.motor1Pin2)
  history : ∀ pre, pre <+: s.writes → pinsReplay pre ≠ (HIGH, HIGH)

/-- A state the controller can be in: power-on followed by calls of the functions of the
sketch (and arrivals of bytes), in any order and with any arguments. -/
def Reachable (s : Controller) : Prop := ∃ cs : List Call, runCalls powerOn cs = s

/-- Every duty cycle in a trace of writes is at most `MAX_DUTY_CYCLE = 255`. -/
def dutyWritesBounded (ws : List ActuatorWrite) : Prop :=
  ∀ v, ActuatorWrite.duty v ∈ ws → v ≤ 255

/-- The controller after `handlePhysicalButtons()` polls that all read the levels `u` and
`d`; each poll has its own pair of clock values. -/
def polls (u d : Bool) (s : Controller) (clocks : List (Nat × Nat)) : Controller :=
  clocks.foldl (fun s c => handlePhysicalButtons (ButtonReads.stable u d) c.1 c.2 s) s

/-- The first button check of `handlePhysicalButtons()` (the FORWARD button) on its own. -/
def checkButtonUp (r : ButtonReads) (tUp : Nat) (s : Controller) : Controller :=
  if r.up1 && !s.btnUpActive then
    startMotor MotorDirection.FORWARD tUp { s with btnUpActive := true }
  else if !r.up2 && s.btnUpActive then
    stopMotor { s with btnUpActive := false }
  else s

/-- The second button check of `handlePhysicalButtons()` (the BACKWARD button) on its
own. -/
def checkButtonDown (r : ButtonReads) (tDown : Nat) (s : Controller) : Controller :=
  if r.down1 && !s.btnDownActive then
    startMotor MotorDirection.BACKWARD tDown { s with btnDownActive := true }
  else if !r.down2 && s.btnDownActive then
    stopMotor { s with btnDownActive := false }
  else s

/-! ## The write trace -/

theorem pinsReplay_concat (ws : List ActuatorWrite) (w : ActuatorWrite) :
    pinsReplay (ws ++ [w]) = pinsAfter (pinsReplay ws) w := by
  simp [pinsReplay, List.foldl_append]

theorem history_concat {ws : List ActuatorWrite} {w : ActuatorWrite}
    (h : ∀ pre, pre <+: ws → pinsReplay pre ≠ (HIGH, HIGH))
    (hw : pinsAfter (pinsReplay ws) w ≠ (HIGH, HIGH)) :
    ∀ pre, pre <+: ws ++ [w] → pinsReplay pre ≠ (HIGH, HIGH) := by
  intro pre hpre
  rcases List.prefix_concat_iff.mp (by simpa using hpre) with heq | hpre
  · rw [heq, pinsReplay_concat]; exact hw
  · exact h pre hpre

/-! ## Preservation of the invariant -/

theorem Inv_boot : Inv boot := by
  refine ⟨by simp [boot], by simp [boot], by simp [boot], by simp [boot], rfl, ?_⟩
  intro pre hpre
  have : pre = [] := by simpa [boot] using hpre
  subst this
  simp [pinsReplay]

theorem Inv_digitalWritePin1 {s : Controller} (v : Bool)
    (hrep : pinsReplay s.writes = (s.motor1Pin1, s.motor1Pin2))
    (hhist : ∀ pre, pre <+: s.writes → pinsReplay pre ≠ (HIGH, HIGH))
    (hv : ¬ (v = HIGH ∧ s.motor1Pin2 = HIGH)) :
    pinsReplay (digitalWritePin1 v s).writes = (v, s.motor1Pin2) ∧
    ∀ pre, pre <+: (digitalWritePin1 v s).writes → pinsReplay pre ≠ (HIGH, HIGH) := by
  have h1 : pinsAfter (pinsReplay s.writes) (ActuatorWrite.pin1 v) = (v, s.motor1Pin2) := by
    simp [pinsAfter, hrep]
  refine ⟨by simp [digitalWritePin1, pinsReplay_concat, h1], ?_⟩
  apply history_concat hhist
  rw [h1]
  intro h
  simp only [Prod.mk.injEq] at h
  exact hv h

theorem Inv_digitalWritePin2 {s : Controller} (v : Bool)
    (hrep : pinsReplay s.writes = (s.motor1Pin1, s.motor1Pin2))
    (hhist : ∀ pre, pre <+: s.writes → pinsReplay pre ≠ (HIGH, HIGH))
    (hv : ¬ (s.motor1Pin1 = HIGH ∧ v = HIGH)) :
    pinsReplay (digitalWritePin2 v s).writes = (s.motor1Pin1, v) ∧
    ∀ pre, pre <+: (digitalWritePin2 v s).writes → pinsReplay pre ≠ (HIGH, HIGH) := by
  have h1 : pinsAfter (pinsReplay s.writes) (ActuatorWrite.pin2 v) = (s.motor1Pin1, v) := by
    simp [pinsAfter, hrep]
  refine ⟨by simp [digitalWritePin2, pinsReplay_concat, h1], ?_⟩
  apply history_concat hhist
  rw [h1]
  intro h
  simp only [Prod.mk.injEq] at h
  exact hv h

theorem Inv_ledcWrite {s : Controller} (v : Int)
    (hrep : pinsReplay s.writes = (s.motor1Pin1, s.motor1Pin2))
    (hhist : ∀ pre, pre <+: s.writes → pinsReplay pre ≠ (HIGH, HIGH)) :
    pinsReplay (ledcWrite v s).writes = (s.motor1Pin1, s.motor1Pin2) ∧
    ∀ pre, pre <+: (ledcWrite v s).writes → pinsReplay pre ≠ (HIGH, HIGH) := by
  have h1 : pinsAfter (pinsReplay s.writes) (ActuatorWrite.duty (v % 2 ^ 32).toNat)
      = (s.motor1Pin1, s.motor1Pin2) := by
    simp [pinsAfter, hrep]
  refine ⟨by rw [← h1]; simp [ledcWrite, pinsReplay_concat], ?_⟩
  apply history_concat hhist
  rw [h1, ← hrep]
  exact hhist s.writes (List.prefix_refl _)

theorem Inv_powerOn : Inv powerOn := by
  have hb := Inv_boot
  obtain ⟨h1, h2⟩ := Inv_ledcWrite 0 hb.replay hb.history
  exact ⟨by simp [powerOn, setup, ledcWrite, boot], by simp [powerOn, setup, ledcWrite, boot],
    by simp [powerOn, setup, ledcWrite, boot], by simp [powerOn, setup, ledcWrite, boot],
    h1, h2⟩

theorem Inv_startMotor {s : Controller} (dir : MotorDirection) (now : Nat) (h : Inv s) :
    Inv (startMotor dir now s) := by
  unfold startMotor
  by_cases hs : s.motorState = MotorState.STOPPED
  · obtain ⟨hp1, hp2, hd⟩ := h.stopped hs
    rw [if_pos hs]
    cases dir
    · obtain ⟨r1, h1⟩ := Inv_digitalWritePin1
        (s := { s with motorDirection := MotorDirection.FORWARD,
                       motorState := MotorState.RAMPING,
                       rampStartTime := millis now }) HIGH h.replay h.history
        (by simp [hp2])
      obtain ⟨r2, h2⟩ := Inv_digitalWritePin2 LOW r1 h1 (by simp)
      exact ⟨by simp [digitalWritePin1, digitalWritePin2],
        by simp [digitalWritePin1, digitalWritePin2, dirPins],
        by simp [digitalWritePin1, digitalWritePin2, hd],
        by simp [digitalWritePin1, digitalWritePin2], r2, h2⟩
    · obtain ⟨r1, h1⟩ := Inv_digitalWritePin1
        (s := { s with motorDirection := MotorDirection.BACKWARD,
                       motorState := MotorState.RAMPING,
                       rampStartTime := millis now }) LOW h.replay h.history
        (by simp)
      obtain ⟨r2, h2⟩ := Inv_digitalWritePin2 HIGH r1 h1 (by simp [digitalWritePin1])
      exact ⟨by simp [digitalWritePin1, digitalWritePin2],
        by simp [digitalWritePin1, digitalWritePin2, dirPins],
        by simp [digitalWritePin1, digitalWritePin2, hd],
        by simp [digitalWritePin1, digitalWritePin2], r2, h2⟩
  · rw [if_neg hs]; exact h

theorem Inv_stopMotor {s : Controller} (h : Inv s) : Inv (stopMotor s) := by
  unfold stopMotor
  by_cases hs : s.motorState = MotorState.STOPPED
  · rw [if_neg (by simpa using hs)]; exact h
  · rw [if_pos hs]
    obtain ⟨r1, h1⟩ := Inv_digitalWritePin1
      (s := { s with motorState := MotorState.STOPPED }) LOW h.replay h.history (by simp)
    obtain ⟨r2, h2⟩ := Inv_digitalWritePin2 LOW r1 h1 (by simp)
    obtain ⟨r3, h3⟩ := Inv_ledcWrite 0 r2 h2
    exact ⟨by simp [digitalWritePin1, digitalWritePin2, ledcWrite],
      by simp [digitalWritePin1, digitalWritePin2, ledcWrite],
      by simp [digitalWritePin1, digitalWritePin2, ledcWrite],
      by simp [digitalWritePin1, digitalWritePin2, ledcWrite], r3, h3⟩

theorem wrapLong_of_small {z : Int} (h0 : -2 ^ 31 ≤ z) (h1 : z < 2 ^ 31) : wrapLong z = z := by
  unfold wrapLong
  omega

/-- The interpolation of the ramp: for an elapsed time below `RAMP_DURATION` the value
`map` returns is `e * 255 / 1000`, without overflow. -/
theorem map_ramp {e : Nat} (he : e < 1000) :
    wrapLong (map (wrapLong (e : Int)) 0 RAMP_DURATION 0 MAX_DUTY_CYCLE)
      = ((e * 255 / 1000 : Nat) : Int) := by
  have hx : wrapLong (e : Int) = (e : Int) := wrapLong_of_small (by omega) (by omega)
  have hrun : wrapLong (((RAMP_DURATION : Nat) : Int) - 0) = 1000 := by
    simp [RAMP_DURATION, wrapLong]
  have hrise : wrapLong (MAX_DUTY_CYCLE - 0) = 255 := by
    simp [MAX_DUTY_CYCLE, wrapLong]
  have hdelta : wrapLong ((e : Int) - 0) = (e : Int) := by
    rw [sub_zero]; exact hx
  have hprod : wrapLong ((e : Int) * 255) = (e : Int) * 255 :=
    wrapLong_of_small (by omega) (by omega)
  have hdiv : Int.tdiv ((e : Int) * 255) 1000 = (e : Int) * 255 / 1000 :=
    Int.tdiv_eq_ediv (by omega) (by omega)
  have hq : wrapLong ((e : Int) * 255 / 1000) = (e : Int) * 255 / 1000 :=
    wrapLong_of_small (by omega) (by omega)
  have hq0 : wrapLong ((e : Int) * 255 / 1000 + 0) = (e : Int) * 255 / 1000 := by
    rw [add_zero]; exact hq
  unfold map
  simp only [hx, hrun, hrise, hdelta, hprod, hdiv, hq, hq0]
  simp only [show ¬ ((1000 : Int) = 0) by decide, if_false]
  rw [hq]
  push_cast
  rfl

theorem ledcWrite_ramp_duty {e : Nat} (he : e < 1000) :
    ((((e * 255 / 1000 : Nat) : Int)) % 2 ^ 32).toNat = e * 255 / 1000 := by
  omega

/-! ## The three branches of `updateMotor` -/

theorem ledcWrite_writes (v : Int) (s : Controller) :
    (ledcWrite v s).writes = s.writes ++ [ActuatorWrite.duty (v % 2 ^ 32).toNat] := rfl

theorem ledcWrite_duty (v : Int) (s : Controller) :
    (ledcWrite v s).duty = (v % 2 ^ 32).toNat := rfl

theorem updateMotor_of_not_ramping {s : Controller} (now : Nat)
    (hs : s.motorState ≠ MotorState.RAMPING) : updateMotor now s = s := by
  unfold updateMotor
  rw [if_neg hs]

theorem updateMotor_of_ramp_done {s : Controller} {now : Nat}
    (hs : s.motorState = MotorState.RAMPING) (he : RAMP_DURATION ≤ elapsedTime now s) :
    updateMotor now s = { ledcWrite 255 s with motorState := MotorState.RUNNING } := by
  unfold updateMotor
  rw [if_pos hs, if_pos he]
  rfl

theorem updateMotor_of_ramping {s : Controller} {now : Nat}
    (hs : s.motorState = MotorState.RAMPING) (he : elapsedTime now s < RAMP_DURATION) :
    updateMotor now s = ledcWrite ((elapsedTime now s * 255 / 1000 : Nat) : Int) s := by
  unfold updateMotor
  rw [if_pos hs, if_neg (by omega)]
  simp only []
  rw [map_ramp (by simpa [RAMP_DURATION] using he)]

theorem Inv_updateMotor {s : Controller} (now : Nat) (h : Inv s) :
    Inv (updateMotor now s) := by
  by_cases hs : s.motorState = MotorState.RAMPING
  · have hm := h.moving (by rw [hs]; decide)
    by_cases he : RAMP_DURATION ≤ elapsedTime now s
    · rw [updateMotor_of_ramp_done hs he]
      obtain ⟨r, hh⟩ := Inv_ledcWrite 255 h.replay h.history
      exact ⟨by simp, fun _ => by simpa [ledcWrite] using hm, by simp, by simp [ledcWrite], r, hh⟩
    · have he1 : elapsedTime now s < 1000 := by simpa [RAMP_DURATION] using he
      rw [updateMotor_of_ramping hs (by omega)]
      obtain ⟨r, hh⟩ := Inv_ledcWrite ((elapsedTime now s * 255 / 1000 : Nat) : Int)
        h.replay h.history
      refine ⟨by simp [ledcWrite, hs], fun _ => by simpa [ledcWrite] using hm, ?_,
        by simp [ledcWrite, hs], r, hh⟩
      intro _
      show ((((elapsedTime now s * 255 / 1000 : Nat) : Int)) % 2 ^ 32).toNat < 255
      rw [ledcWrite_ramp_duty he1]
      omega
  · rw [updateMotor_of_not_ramping now hs]; exact h

/-- The invariant does not read the button flags or the stream. -/
theorem Inv_congr {s s' : Controller} (h : Inv s)
    (h1 : s'.motorState = s.motorState) (h2 : s'.motorDirection = s.motorDirection)
    (h3 : s'.motor1Pin1 = s.motor1Pin1) (h4 : s'.motor1Pin2 = s.motor1Pin2) (h5 : s'.duty = s.duty)
    (h6 : s'.writes = s.writes) : Inv s' := by
  refine ⟨?_, ?_, ?_, ?_, ?_, ?_⟩
  · rw [h1, h3, h4, h5]; exact h.stopped
  · rw [h1, h2, h3, h4]; exact h.moving
  · rw [h1, h5]; exact h.ramping
  · rw [h1, h5]; exact h.running
  · rw [h3, h4, h6]; exact h.replay
  · rw [h6]; exact h.history

theorem Inv_receive {s : Controller} (bytes : List Nat) (h : Inv s) :
    Inv (receive bytes s) :=
  Inv_congr h rfl rfl rfl rfl rfl rfl

theorem Inv_handleBluetoothCommands {s : Controller} (now : Nat) (h : Inv s) :
    Inv (handleBluetoothCommands now s) := by
  unfold handleBluetoothCommands
  split
  · exact h
  · rename_i b rest _
    have h1 : Inv { s with stream := rest } := Inv_congr h rfl rfl rfl rfl rfl rfl
    simp only []
    split_ifs
    · exact Inv_startMotor _ _ h1
    · exact Inv_startMotor _ _ h1
    · exact Inv_stopMotor h1
    · exact h1

theorem Inv_handlePhysicalButtons {s : Controller} (r : ButtonReads) (tUp tDown : Nat)
    (h : Inv s) : Inv (handlePhysicalButtons r tUp tDown s) := by
  unfold handlePhysicalButtons
  have hup : Inv (if (r.up1 && !s.btnUpActive) = true then
      startMotor MotorDirection.FORWARD tUp { s with btnUpActive := true }
    else if (!r.up2 && s.btnUpActive) = true then
      stopMotor { s with btnUpActive := false }
    else s) := by
    split_ifs
    · exact Inv_startMotor _ _ (Inv_congr h rfl rfl rfl rfl rfl rfl)
    · exact Inv_stopMotor (Inv_congr h rfl rfl rfl rfl rfl rfl)
    · exact h
  have hdown : ∀ s1 : Controller, Inv s1 → Inv (if (r.down1 && !s1.btnDownActive) = true then
      startMotor MotorDirection.BACKWARD tDown { s1 with btnDownActive := true }
    else if (!r.down2 && s1.btnDownActive) = true then
      stopMotor { s1 with btnDownActive := false }
    else s1) := by
    intro s1 h1
    split_ifs
    · exact Inv_startMotor _ _ (Inv_congr h1 rfl rfl rfl rfl rfl rfl)
    · exact Inv_stopMotor (Inv_congr h1 rfl rfl rfl rfl rfl rfl)
    · exact h1
  exact hdown _ hup

theorem Inv_loop {s : Controller} (i : LoopInput) (h : Inv s) : Inv (loop i s) :=
  Inv_updateMotor _ (Inv_handlePhysicalButtons _ _ _
    (Inv_handleBluetoothCommands _ (Inv_receive _ h)))

theorem Inv_runLoop {s : Controller} (is : List LoopInput) (h : Inv s) :
    Inv (runLoop s is) := by
  induction is generalizing s with
  | nil => exact h
  | cons i is ih => exact ih (Inv_loop i h)

theorem Inv_apply {s : Controller} (c : Call) (h : Inv s) : Inv (c.apply s) := by
  cases c with
  | startMotor dir now => exact Inv_startMotor dir now h
  | stopMotor => exact Inv_stopMotor h
  | handlePhysicalButtons r tUp tDown => exact Inv_handlePhysicalButtons r tUp tDown h
  | handleBluetoothCommands now => exact Inv_handleBluetoothCommands now h
  | updateMotor now => exact Inv_updateMotor now h
  | receive bytes => exact Inv_receive bytes h

theorem Inv_runCalls {s : Controller} (cs : List Call) (h : Inv s) :
    Inv (runCalls s cs) := by
  induction cs generalizing s with
  | nil => exact h
  | cons c cs ih => exact ih (Inv_apply c h)

theorem Inv_of_reachable {s : Controller} (h : Reachable s) : Inv s := by
  obtain ⟨cs, rfl⟩ := h
  exact Inv_runCalls cs Inv_powerOn

theorem Inv_not_both_high {s : Controller} (h : Inv s) :
    ¬ (s.motor1Pin1 = HIGH ∧ s.motor1Pin2 = HIGH) := by
  intro hb
  apply h.history s.writes (List.prefix_refl _)
  rw [h.replay, hb.1, hb.2]

/-! ## Direction while moving -/

theorem startMotor_of_moving {s : Controller} (dir : MotorDirection) (now : Nat)
    (hs : s.motorState ≠ MotorState.STOPPED) : startMotor dir now s = s := by
  unfold startMotor
  rw [if_neg hs]

theorem stopMotor_of_stopped {s : Controller} (hs : s.motorState = MotorState.STOPPED) :
    stopMotor s = s := by
  unfold stopMotor
  rw [if_neg (by simpa using hs)]

theorem stopMotor_motorDirection (s : Controller) :
    (stopMotor s).motorDirection = s.motorDirection := by
  unfold stopMotor
  split_ifs <;> simp [ledcWrite, digitalWritePin1, digitalWritePin2]

theorem updateMotor_motorDirection (now : Nat) (s : Controller) :
    (updateMotor now s).motorDirection = s.motorDirection := by
  by_cases hs : s.motorState = MotorState.RAMPING
  · by_cases he : RAMP_DURATION ≤ elapsedTime now s
    · rw [updateMotor_of_ramp_done hs he]
      rfl
    · rw [updateMotor_of_ramping hs (by omega)]
      rfl
  · rw [updateMotor_of_not_ramping now hs]

theorem apply_motorDirection {s : Controller} (e : MotorEvent)
    (hs : s.motorState ≠ MotorState.STOPPED) :
    (e.apply s).motorDirection = s.motorDirection := by
  cases e with
  | start dir now => simp [MotorEvent.apply, startMotor_of_moving dir now hs]
  | stop => exact stopMotor_motorDirection s
  | tick now => exact updateMotor_motorDirection now s

theorem runEvents_append (s : Controller) (es₁ es₂ : List MotorEvent) :
    runEvents s (es₁ ++ es₂) = runEvents (runEvents s es₁) es₂ := by
  simp [runEvents, List.foldl_append]

/-- If no state strictly inside a run is STOPPED, the run keeps the direction. -/
theorem runEvents_motorDirection (es : List MotorEvent) :
    ∀ s : Controller, s.motorState ≠ MotorState.STOPPED →
      (∀ pre post, es = pre ++ post → pre ≠ [] → post ≠ [] →
        (runEvents s pre).motorState ≠ MotorState.STOPPED) →
      (runEvents s es).motorDirection = s.motorDirection := by
  induction es with
  | nil => intro s _ _; rfl
  | cons e es ih =>
    intro s hs hmid
    show (runEvents (e.apply s) es).motorDirection = s.motorDirection
    cases es with
    | nil => exact apply_motorDirection e hs
    | cons e' es' =>
      have h1 : (e.apply s).motorState ≠ MotorState.STOPPED :=
        hmid [e] (e' :: es') rfl (by simp) (by simp)
      rw [ih (e.apply s) h1, apply_motorDirection e hs]
      intro pre post hsplit hpre hpost
      exact hmid (e :: pre) post (by rw [hsplit]; rfl) (by simp) hpost

/-! ## The ramp -/

theorem elapsedTime_eq {s : Controller} {t0 t : Nat} (hs : s.rampStartTime = millis t0)
    (h0 : t0 ≤ t) (hb : t < t0 + 2 ^ 32) : elapsedTime t s = t - t0 := by
  unfold elapsedTime
  rw [hs]
  unfold millis
  omega

theorem ticks_of_not_ramping {s : Controller} (hs : s.motorState ≠ MotorState.RAMPING)
    (ts : List Nat) : ticks s ts = s := by
  induction ts with
  | nil => rfl
  | cons t ts ih =>
    show ticks (updateMotor t s) ts = s
    rw [updateMotor_of_not_ramping t hs, ih]

/-- C1: in every state reached from power-on by any sequence of `loop()` iterations, with
arbitrary button levels, stream bytes and clock values, the two direction pins are not both
HIGH; this holds for the pins of the state after each iteration and, the pins being the
replay of the write trace, after every single actuator write made on the way. -/
theorem C1_pins_never_both_high (is : List LoopInput) :
    ¬ ((runLoop powerOn is).motor1Pin1 = HIGH ∧ (runLoop powerOn is).motor1Pin2 = HIGH) ∧
    pinsReplay (runLoop powerOn is).writes
      = ((runLoop powerOn is).motor1Pin1, (runLoop powerOn is).motor1Pin2) ∧
    ∀ pre, pre <+: (runLoop powerOn is).writes → pinsReplay pre ≠ (HIGH, HIGH) := by
  have h := Inv_runLoop is Inv_powerOn
  exact ⟨Inv_not_both_high h, h.replay, h.history⟩

/-- C2: in every state reached from power-on by any sequence of `startMotor`, `stopMotor`,
`handlePhysicalButtons`, `handleBluetoothCommands` and `updateMotor` calls, if `motorState`
is STOPPED then both direction pins are LOW and the duty cycle is 0. -/
theorem C2_stopped_is_coasting (cs : List Call)
    (h : (runCalls powerOn cs).motorState = MotorState.STOPPED) :
    (runCalls powerOn cs).motor1Pin1 = LOW ∧ (runCalls powerOn cs).motor1Pin2 = LOW ∧
    (runCalls powerOn cs).duty = 0 :=
  (Inv_runCalls cs Inv_powerOn).stopped h

theorem C2_stopped_is_coasting_witness :
    (runCalls powerOn [Call.startMotor MotorDirection.FORWARD 0, Call.updateMotor 400,
        Call.stopMotor]).motorState = MotorState.STOPPED ∧
    (runCalls powerOn [Call.startMotor MotorDirection.FORWARD 0, Call.updateMotor 400,
        Call.stopMotor]).motor1Pin1 = LOW ∧
    (runCalls powerOn [Call.startMotor MotorDirection.FORWARD 0, Call.updateMotor 400,
        Call.stopMotor]).motor1Pin2 = LOW ∧
    (runCalls powerOn [Call.startMotor MotorDirection.FORWARD 0, Call.updateMotor 400,
        Call.stopMotor]).duty = 0 :=
  ⟨by decide, C2_stopped_is_coasting _ (by decide)⟩

/-- C3: `motorDirection` is stable while the motor is moving.  In the state `s` reached by
any sequence `es₁` of `startMotor` / `stopMotor` / `updateMotor` events from any state,
if `motorState` is not STOPPED then none of these events changes `motorDirection`; and if
a further run `es₂` ends in a non-STOPPED state with another direction than the
non-STOPPED state `s`, some state strictly between the two is STOPPED. -/
theorem C3_direction_stable (s₀ : Controller) (es₁ es₂ : List MotorEvent) (e : MotorEvent)
    (hs : (runEvents s₀ es₁).motorState ≠ MotorState.STOPPED) :
    (e.apply (runEvents s₀ es₁)).motorDirection = (runEvents s₀ es₁).motorDirection ∧
    ((runEvents s₀ (es₁ ++ es₂)).motorState ≠ MotorState.STOPPED →
      (runEvents s₀ (es₁ ++ es₂)).motorDirection ≠ (runEvents s₀ es₁).motorDirection →
      ∃ pre post, es₂ = pre ++ post ∧ pre ≠ [] ∧ post ≠ [] ∧
        (runEvents s₀ (es₁ ++ pre)).motorState = MotorState.STOPPED) := by
  refine ⟨apply_motorDirection e hs, ?_⟩
  intro _ hdir
  by_contra hno
  apply hdir
  rw [runEvents_append]
  apply runEvents_motorDirection es₂ _ hs
  intro pre post hsplit hpre hpost hstop
  apply hno
  refine ⟨pre, post, hsplit, hpre, hpost, ?_⟩
  rw [runEvents_append]
  exact hstop

theorem C3_direction_stable_witness :
    (runEvents powerOn [MotorEvent.start MotorDirection.FORWARD 0]).motorState
      ≠ MotorState.STOPPED ∧
    ((MotorEvent.start MotorDirection.BACKWARD 3).apply
        (runEvents powerOn [MotorEvent.start MotorDirection.FORWARD 0])).motorDirection
      = MotorDirection.FORWARD ∧
    (runEvents powerOn ([MotorEvent.start MotorDirection.FORWARD 0] ++
        [MotorEvent.stop, MotorEvent.start MotorDirection.BACKWARD 5])).motorDirection
      = MotorDirection.BACKWARD ∧
    ∃ pre post, [MotorEvent.stop, MotorEvent.start MotorDirection.BACKWARD 5] = pre ++ post ∧
      pre ≠ [] ∧ post ≠ [] ∧
      (runEvents powerOn ([MotorEvent.start MotorDirection.FORWARD 0] ++ pre)).motorState
        = MotorState.STOPPED :=
  ⟨by decide,
   (C3_direction_stable powerOn [MotorEvent.start MotorDirection.FORWARD 0]
      [MotorEvent.stop, MotorEvent.start MotorDirection.BACKWARD 5]
      (MotorEvent.start MotorDirection.BACKWARD 3) (by decide)).1,
   by decide,
   (C3_direction_stable powerOn [MotorEvent.start MotorDirection.FORWARD 0]
      [MotorEvent.stop, MotorEvent.start MotorDirection.BACKWARD 5]
      (MotorEvent.start MotorDirection.BACKWARD 3) (by decide)).2 (by decide) (by decide)⟩

/-- C4: for every direction `dir` and every reachable state with `motorState` STOPPED,
`startMotor(dir)` at clock value `now` gives `motorState` RAMPING, `motorDirection = dir`,
`rampStartTime` the counter value at `now` (which is `now` itself for a 32-bit value), pins
(HIGH, LOW) for FORWARD or (LOW, HIGH) for BACKWARD, and duty cycle 0 right after the
call. -/
theorem C4_start_from_stopped (s : Controller) (dir : MotorDirection) (now : Nat)
    (hr : Reachable s) (hs : s.motorState = MotorState.STOPPED) :
    (startMotor dir now s).motorState = MotorState.RAMPING ∧
    (startMotor dir now s).motorDirection = dir ∧
    (startMotor dir now s).rampStartTime = millis now ∧
    (now < 2 ^ 32 → (startMotor dir now s).rampStartTime = now) ∧
    (dir = MotorDirection.FORWARD →
      (startMotor dir now s).motor1Pin1 = HIGH ∧ (startMotor dir now s).motor1Pin2 = LOW) ∧
    (dir = MotorDirection.BACKWARD →
      (startMotor dir now s).motor1Pin1 = LOW ∧ (startMotor dir now s).motor1Pin2 = HIGH) ∧
    (startMotor dir now s).duty = 0 := by
  obtain ⟨_, _, hd⟩ := (Inv_of_reachable hr).stopped hs
  unfold startMotor
  rw [if_pos hs]
  cases dir
  · refine ⟨rfl, rfl, rfl, ?_, ?_, ?_, ?_⟩
    · intro hn
      exact Nat.mod_eq_of_lt hn
    · intro _; exact ⟨rfl, rfl⟩
    · intro h; cases h
    · simpa [digitalWritePin1, digitalWritePin2] using hd
  · refine ⟨rfl, rfl, rfl, ?_, ?_, ?_, ?_⟩
    · intro hn
      exact Nat.mod_eq_of_lt hn
    · intro h; cases h
    · intro _; exact ⟨rfl, rfl⟩
    · simpa [digitalWritePin1, digitalWritePin2] using hd

theorem C4_start_from_stopped_witness :
    Reachable powerOn ∧ powerOn.motorState = MotorState.STOPPED ∧
    (startMotor MotorDirection.BACKWARD 7 powerOn).motorState = MotorState.RAMPING ∧
    (startMotor MotorDirection.BACKWARD 7 powerOn).motorDirection = MotorDirection.BACKWARD ∧
    (startMotor MotorDirection.BACKWARD 7 powerOn).rampStartTime = millis 7 ∧
    (7 < 2 ^ 32 → (startMotor MotorDirection.BACKWARD 7 powerOn).rampStartTime = 7) ∧
    (MotorDirection.BACKWARD = MotorDirection.FORWARD →
      (startMotor MotorDirection.BACKWARD 7 powerOn).motor1Pin1 = HIGH ∧
      (startMotor MotorDirection.BACKWARD 7 powerOn).motor1Pin2 = LOW) ∧
    (MotorDirection.BACKWARD = MotorDirection.BACKWARD →
      (startMotor MotorDirection.BACKWARD 7 powerOn).motor1Pin1 = LOW ∧
      (startMotor MotorDirection.BACKWARD 7 powerOn).motor1Pin2 = HIGH) ∧
    (startMotor MotorDirection.BACKWARD 7 powerOn).duty = 0 :=
  ⟨⟨[], rfl⟩, by decide,
   C4_start_from_stopped powerOn MotorDirection.BACKWARD 7 ⟨[], rfl⟩ (by decide)⟩

/-- C5: for every state with `motorState` RAMPING or RUNNING, `stopMotor()` gives
`motorState` STOPPED with both direction pins LOW and duty cycle 0. -/
theorem C5_stop_when_moving (s : Controller)
    (hs : s.motorState = MotorState.RAMPING ∨ s.motorState = MotorState.RUNNING) :
    (stopMotor s).motorState = MotorState.STOPPED ∧
    (stopMotor s).motor1Pin1 = LOW ∧ (stopMotor s).motor1Pin2 = LOW ∧ (stopMotor s).duty = 0 := by
  have hne : s.motorState ≠ MotorState.STOPPED := by
    rcases hs with h | h <;> rw [h] <;> decide
  unfold stopMotor
  rw [if_pos hne]
  exact ⟨rfl, rfl, rfl, rfl⟩

theorem C5_stop_when_moving_witness :
    elapsedTime 300 (startMotor MotorDirection.FORWARD 0 powerOn) = 300 ∧
    ((updateMotor 300 (startMotor MotorDirection.FORWARD 0 powerOn)).motorState
        = MotorState.RAMPING ∨
      (updateMotor 300 (startMotor MotorDirection.FORWARD 0 powerOn)).motorState
        = MotorState.RUNNING) ∧
    (stopMotor (updateMotor 300 (startMotor MotorDirection.FORWARD 0 powerOn))).motorState
      = MotorState.STOPPED ∧
    (stopMotor (updateMotor 300 (startMotor MotorDirection.FORWARD 0 powerOn))).motor1Pin1 = LOW ∧
    (stopMotor (updateMotor 300 (startMotor MotorDirection.FORWARD 0 powerOn))).motor1Pin2 = LOW ∧
    (stopMotor (updateMotor 300 (startMotor MotorDirection.FORWARD 0 powerOn))).duty = 0 :=
  ⟨by decide, by decide,
   C5_stop_when_moving (updateMotor 300 (startMotor MotorDirection.FORWARD 0 powerOn))
     (by decide)⟩

/-- C6: for every direction `dir` and every state with `motorState` not STOPPED,
`startMotor(dir)` makes no actuator write (the write trace, the pins and the duty cycle are
unchanged) and leaves `motorState`, `motorDirection` and `rampStartTime` unchanged; it
leaves the whole state as it is. -/
theorem C6_start_while_moving (s : Controller) (dir : MotorDirection) (now : Nat)
    (hs : s.motorState ≠ MotorState.STOPPED) :
    (startMotor dir now s).writes = s.writes ∧
    (startMotor dir now s).motor1Pin1 = s.motor1Pin1 ∧
    (startMotor dir now s).motor1Pin2 = s.motor1Pin2 ∧
    (startMotor dir now s).duty = s.duty ∧
    (startMotor dir now s).motorState = s.motorState ∧
    (startMotor dir now s).motorDirection = s.motorDirection ∧
    (startMotor dir now s).rampStartTime = s.rampStartTime ∧
    startMotor dir now s = s := by
  rw [startMotor_of_moving dir now hs]
  exact ⟨rfl, rfl, rfl, rfl, rfl, rfl, rfl, rfl⟩

theorem C6_start_while_moving_witness :
    (updateMotor 1000 (startMotor MotorDirection.FORWARD 0 powerOn)).motorState
      = MotorState.RUNNING ∧
    (updateMotor 1000 (startMotor MotorDirection.FORWARD 0 powerOn)).motorDirection
      = MotorDirection.FORWARD ∧
    (startMotor MotorDirection.BACKWARD 1500
      (updateMotor 1000 (startMotor MotorDirection.FORWARD 0 powerOn)))
      = updateMotor 1000 (startMotor MotorDirection.FORWARD 0 powerOn) :=
  ⟨by decide, by decide,
   (C6_start_while_moving (updateMotor 1000 (startMotor MotorDirection.FORWARD 0 powerOn))
     MotorDirection.BACKWARD 1500 (by decide)).2.2.2.2.2.2.2⟩

/-- C7: `stopMotor` is idempotent: `stopMotor (stopMotor s) = stopMotor s` for every state
`s`, and when `motorState` is already STOPPED `stopMotor()` makes no actuator write and
changes no field. -/
theorem C7_stop_idempotent (s : Controller) :
    stopMotor (stopMotor s) = stopMotor s ∧
    (s.motorState = MotorState.STOPPED →
      (stopMotor s).writes = s.writes ∧ stopMotor s = s) := by
  constructor
  · apply stopMotor_of_stopped
    unfold stopMotor
    split_ifs with h
    · rfl
    · simpa using h
  · intro hs
    rw [stopMotor_of_stopped hs]
    exact ⟨rfl, rfl⟩

theorem C7_stop_idempotent_witness :
    powerOn.motorState = MotorState.STOPPED ∧
    (stopMotor powerOn).writes = powerOn.writes ∧ stopMotor powerOn = powerOn :=
  ⟨by decide, (C7_stop_idempotent powerOn).2 (by decide)⟩

/-- C8: for every elapsed time `e = millis() - rampStartTime` with `0 ≤ e < RAMP_DURATION`,
`updateMotor()` in state RAMPING makes exactly one write, of duty cycle
`floor(e * 255 / 1000)`, and leaves `motorState` RAMPING and `motorDirection` unchanged;
`e = 500` gives 127 and `e = 250` gives 63. -/
theorem C8_ramp_interpolation (s : Controller) (now : Nat)
    (hs : s.motorState = MotorState.RAMPING) (he : elapsedTime now s < RAMP_DURATION) :
    (updateMotor now s).writes
      = s.writes ++ [ActuatorWrite.duty (elapsedTime now s * 255 / 1000)] ∧
    (updateMotor now s).duty = elapsedTime now s * 255 / 1000 ∧
    (updateMotor now s).motorState = MotorState.RAMPING ∧
    (updateMotor now s).motorDirection = s.motorDirection ∧
    (elapsedTime now s = 500 → (updateMotor now s).duty = 127) ∧
    (elapsedTime now s = 250 → (updateMotor now s).duty = 63) := by
  have hlt : elapsedTime now s < 1000 := by simpa [RAMP_DURATION] using he
  have hd : (updateMotor now s).duty = elapsedTime now s * 255 / 1000 := by
    rw [updateMotor_of_ramping hs he]
    exact ledcWrite_ramp_duty hlt
  refine ⟨?_, hd, ?_, updateMotor_motorDirection now s, ?_, ?_⟩
  · rw [updateMotor_of_ramping hs he]
    rw [ledcWrite_writes, ledcWrite_ramp_duty hlt]
  · rw [updateMotor_of_ramping hs he]
    exact hs
  · intro h
    rw [hd, h]
  · intro h
    rw [hd, h]

theorem C8_ramp_interpolation_witness :
    (startMotor MotorDirection.FORWARD 0 powerOn).motorState = MotorState.RAMPING ∧
    elapsedTime 500 (startMotor MotorDirection.FORWARD 0 powerOn) = 500 ∧
    (updateMotor 500 (startMotor MotorDirection.FORWARD 0 powerOn)).duty = 127 :=
  ⟨by decide, by decide,
   (C8_ramp_interpolation (startMotor MotorDirection.FORWARD 0 powerOn) 500
     (by decide) (by decide)).2.2.2.2.1 (by decide)⟩

/-- C9: for every elapsed time `e ≥ RAMP_DURATION`, `updateMotor()` in state RAMPING makes
exactly one write, of duty cycle `MAX_DUTY_CYCLE = 255`, and sets `motorState` RUNNING with
`motorDirection` unchanged; any further `updateMotor()` calls, at any times, change
nothing and so write no duty.  Scenario A: from power-on, Start(Forward) at `t = 0` and a
tick at `t = 250` give duty 63, RAMPING, FORWARD; a tick at `t = 1000` then gives duty 255
and RUNNING. -/
theorem C9_ramp_completion (s : Controller) (now : Nat) (later : List Nat)
    (hs : s.motorState = MotorState.RAMPING) (he : RAMP_DURATION ≤ elapsedTime now s) :
    (updateMotor now s).writes = s.writes ++ [ActuatorWrite.duty 255] ∧
    (updateMotor now s).duty = 255 ∧
    (updateMotor now s).motorState = MotorState.RUNNING ∧
    (updateMotor now s).motorDirection = s.motorDirection ∧
    ticks (updateMotor now s) later = updateMotor now s ∧
    (ticks (updateMotor now s) later).writes = (updateMotor now s).writes ∧
    ((updateMotor 250 (startMotor MotorDirection.FORWARD 0 powerOn)).duty = 63 ∧
      (updateMotor 250 (startMotor MotorDirection.FORWARD 0 powerOn)).motorState
        = MotorState.RAMPING ∧
      (updateMotor 250 (startMotor MotorDirection.FORWARD 0 powerOn)).motorDirection
        = MotorDirection.FORWARD ∧
      (updateMotor 1000
        (updateMotor 250 (startMotor MotorDirection.FORWARD 0 powerOn))).duty = 255 ∧
      (updateMotor 1000
        (updateMotor 250 (startMotor MotorDirection.FORWARD 0 powerOn))).motorState
        = MotorState.RUNNING) := by
  have hrun : (updateMotor now s).motorState = MotorState.RUNNING := by
    rw [updateMotor_of_ramp_done hs he]
  have hfix : ticks (updateMotor now s) later = updateMotor now s :=
    ticks_of_not_ramping (by rw [hrun]; decide) later
  refine ⟨?_, ?_, hrun, updateMotor_motorDirection now s, hfix, by rw [hfix], ?_⟩
  · rw [updateMotor_of_ramp_done hs he]
    rfl
  · rw [updateMotor_of_ramp_done hs he]
    rfl
  · decide

theorem C9_ramp_completion_witness :
    (updateMotor 250 (startMotor MotorDirection.FORWARD 0 powerOn)).motorState
      = MotorState.RAMPING ∧
    RAMP_DURATION ≤ elapsedTime 1000
      (updateMotor 250 (startMotor MotorDirection.FORWARD 0 powerOn)) ∧
    (updateMotor 1000 (updateMotor 250 (startMotor MotorDirection.FORWARD 0 powerOn))).writes
      = (updateMotor 250 (startMotor MotorDirection.FORWARD 0 powerOn)).writes
        ++ [ActuatorWrite.duty 255] ∧
    ticks (updateMotor 1000 (updateMotor 250 (startMotor MotorDirection.FORWARD 0 powerOn)))
        [1001, 1500, 4294967297]
      = updateMotor 1000 (updateMotor 250 (startMotor MotorDirection.FORWARD 0 powerOn)) :=
  ⟨by decide, by decide,
   (C9_ramp_completion (updateMotor 250 (startMotor MotorDirection.FORWARD 0 powerOn)) 1000
     [1001, 1500, 4294967297] (by decide) (by decide)).1,
   (C9_ramp_completion (updateMotor 250 (startMotor MotorDirection.FORWARD 0 powerOn)) 1000
     [1001, 1500, 4294967297] (by decide) (by decide)).2.2.2.2.1⟩

theorem dutyWritesBounded_pin1 {ws : List ActuatorWrite} (v : Bool)
    (h : dutyWritesBounded ws) : dutyWritesBounded (ws ++ [ActuatorWrite.pin1 v]) := by
  intro x hx
  simp at hx
  exact h x hx

theorem dutyWritesBounded_pin2 {ws : List ActuatorWrite} (v : Bool)
    (h : dutyWritesBounded ws) : dutyWritesBounded (ws ++ [ActuatorWrite.pin2 v]) := by
  intro x hx
  simp at hx
  exact h x hx

theorem dutyWritesBounded_duty {ws : List ActuatorWrite} {v : Nat} (hv : v ≤ 255)
    (h : dutyWritesBounded ws) : dutyWritesBounded (ws ++ [ActuatorWrite.duty v]) := by
  intro x hx
  simp at hx
  rcases hx with hx | hx
  · exact h x hx
  · rw [hx]; exact hv

theorem dutyWritesBounded_startMotor {s : Controller} (dir : MotorDirection) (now : Nat)
    (h : dutyWritesBounded s.writes) : dutyWritesBounded (startMotor dir now s).writes := by
  unfold startMotor
  split_ifs
  · exact dutyWritesBounded_pin2 _ (dutyWritesBounded_pin1 _ h)
  · exact dutyWritesBounded_pin2 _ (dutyWritesBounded_pin1 _ h)
  · exact h

theorem dutyWritesBounded_stopMotor {s : Controller}
    (h : dutyWritesBounded s.writes) : dutyWritesBounded (stopMotor s).writes := by
  unfold stopMotor
  split_ifs
  · exact dutyWritesBounded_duty (by decide)
      (dutyWritesBounded_pin2 _ (dutyWritesBounded_pin1 _ h))
  · exact h

theorem dutyWritesBounded_updateMotor {s : Controller} (now : Nat)
    (h : dutyWritesBounded s.writes) : dutyWritesBounded (updateMotor now s).writes := by
  by_cases hs : s.motorState = MotorState.RAMPING
  · by_cases he : RAMP_DURATION ≤ elapsedTime now s
    · rw [updateMotor_of_ramp_done hs he]
      exact dutyWritesBounded_duty (by decide) h
    · have hlt : elapsedTime now s < 1000 := by simpa [RAMP_DURATION] using he
      rw [updateMotor_of_ramping hs (by omega), ledcWrite_writes, ledcWrite_ramp_duty hlt]
      exact dutyWritesBounded_duty (by omega) h
  · rw [updateMotor_of_not_ramping now hs]; exact h

theorem dutyWritesBounded_handleBluetoothCommands {s : Controller} (now : Nat)
    (h : dutyWritesBounded s.writes) :
    dutyWritesBounded (handleBluetoothCommands now s).writes := by
  unfold handleBluetoothCommands
  split
  · exact h
  · rename_i b rest _
    have h1 : dutyWritesBounded ({ s with stream := rest } : Controller).writes := h
    simp only []
    split_ifs
    · exact dutyWritesBounded_startMotor _ _ h1
    · exact dutyWritesBounded_startMotor _ _ h1
    · exact dutyWritesBounded_stopMotor h1
    · exact h1

theorem dutyWritesBounded_handlePhysicalButtons {s : Controller} (r : ButtonReads)
    (tUp tDown : Nat) (h : dutyWritesBounded s.writes) :
    dutyWritesBounded (handlePhysicalButtons r tUp tDown s).writes := by
  unfold handlePhysicalButtons
  have hup : dutyWritesBounded (if (r.up1 && !s.btnUpActive) = true then
      startMotor MotorDirection.FORWARD tUp { s with btnUpActive := true }
    else if (!r.up2 && s.btnUpActive) = true then
      stopMotor { s with btnUpActive := false }
    else s).writes := by
    split_ifs
    · exact dutyWritesBounded_startMotor _ _ h
    · exact dutyWritesBounded_stopMotor h
    · exact h
  have hdown : ∀ s1 : Controller, dutyWritesBounded s1.writes →
      dutyWritesBounded (if (r.down1 && !s1.btnDownActive) = true then
        startMotor MotorDirection.BACKWARD tDown { s1 with btnDownActive := true }
      else if (!r.down2 && s1.btnDownActive) = true then
        stopMotor { s1 with btnDownActive := false }
      else s1).writes := by
    intro s1 h1
    split_ifs
    · exact dutyWritesBounded_startMotor _ _ h1
    · exact dutyWritesBounded_stopMotor h1
    · exact h1
  exact hdown _ hup

theorem dutyWritesBounded_apply {s : Controller} (c : Call)
    (h : dutyWritesBounded s.writes) : dutyWritesBounded (c.apply s).writes := by
  cases c with
  | startMotor dir now => exact dutyWritesBounded_startMotor dir now h
  | stopMotor => exact dutyWritesBounded_stopMotor h
  | handlePhysicalButtons r tUp tDown =>
    exact dutyWritesBounded_handlePhysicalButtons r tUp tDown h
  | handleBluetoothCommands now => exact dutyWritesBounded_handleBluetoothCommands now h
  | updateMotor now => exact dutyWritesBounded_updateMotor now h
  | receive bytes => exact h

theorem dutyWritesBounded_runCalls {s : Controller} (cs : List Call)
    (h : dutyWritesBounded s.writes) : dutyWritesBounded (runCalls s cs).writes := by
  induction cs generalizing s with
  | nil => exact h
  | cons c cs ih => exact ih (dutyWritesBounded_apply c h)

theorem dutyWritesBounded_powerOn : dutyWritesBounded powerOn.writes := by
  intro v hv
  simp [powerOn, setup, ledcWrite, boot] at hv
  omega

theorem wrapLong_wrapLong (z : Int) : wrapLong (wrapLong z) = wrapLong z := by
  unfold wrapLong
  omega

/-- The value `map` returns is a 32-bit `long`. -/
theorem wrapLong_map (x in_min in_max out_min out_max : Int) :
    wrapLong (map x in_min in_max out_min out_max) = map x in_min in_max out_min out_max := by
  unfold map
  simp only []
  split_ifs
  · unfold wrapLong; omega
  · exact wrapLong_wrapLong _

/-! ## What the functions leave alone -/

theorem startMotor_frame (dir : MotorDirection) (now : Nat) (s : Controller) :
    (startMotor dir now s).stream = s.stream ∧
    (startMotor dir now s).btnUpActive = s.btnUpActive ∧
    (startMotor dir now s).btnDownActive = s.btnDownActive := by
  unfold startMotor
  split_ifs <;> exact ⟨rfl, rfl, rfl⟩

theorem stopMotor_frame (s : Controller) :
    (stopMotor s).stream = s.stream ∧
    (stopMotor s).btnUpActive = s.btnUpActive ∧
    (stopMotor s).btnDownActive = s.btnDownActive := by
  unfold stopMotor
  split_ifs <;> exact ⟨rfl, rfl, rfl⟩

theorem stopMotor_motorState (s : Controller) :
    (stopMotor s).motorState = MotorState.STOPPED := by
  unfold stopMotor
  split_ifs with h
  · rfl
  · simpa using h

theorem updateMotor_frame (now : Nat) (s : Controller) :
    (updateMotor now s).stream = s.stream ∧
    (updateMotor now s).btnUpActive = s.btnUpActive ∧
    (updateMotor now s).btnDownActive = s.btnDownActive := by
  by_cases hs : s.motorState = MotorState.RAMPING
  · by_cases he : RAMP_DURATION ≤ elapsedTime now s
    · rw [updateMotor_of_ramp_done hs he]
      exact ⟨rfl, rfl, rfl⟩
    · rw [updateMotor_of_ramping hs (by omega)]
      exact ⟨rfl, rfl, rfl⟩
  · rw [updateMotor_of_not_ramping now hs]
    exact ⟨rfl, rfl, rfl⟩

theorem updateMotor_stopped_iff (now : Nat) (s : Controller) :
    (updateMotor now s).motorState = MotorState.STOPPED ↔
      s.motorState = MotorState.STOPPED := by
  by_cases hs : s.motorState = MotorState.RAMPING
  · by_cases he : RAMP_DURATION ≤ elapsedTime now s
    · rw [updateMotor_of_ramp_done hs he, hs]
      simp
    · rw [updateMotor_of_ramping hs (by omega)]
      exact Iff.rfl
  · rw [updateMotor_of_not_ramping now hs]

theorem handleBluetoothCommands_cons {s : Controller} (now : Nat) {c : Nat}
    {rest : List Nat} (hc : c < 256) (hs : s.stream = c :: rest) :
    handleBluetoothCommands now s =
      if c = 70 ∨ c = 102 then startMotor MotorDirection.FORWARD now { s with stream := rest }
      else if c = 66 ∨ c = 98 then
        startMotor MotorDirection.BACKWARD now { s with stream := rest }
      else if c = 83 ∨ c = 115 then stopMotor { s with stream := rest }
      else { s with stream := rest } := by
  unfold handleBluetoothCommands
  rw [hs]
  simp only [Nat.mod_eq_of_lt hc]

theorem handlePhysicalButtons_frame (r : ButtonReads) (tUp tDown : Nat) (s : Controller) :
    (handlePhysicalButtons r tUp tDown s).stream = s.stream := by
  unfold handlePhysicalButtons
  have hup : (if (r.up1 && !s.btnUpActive) = true then
      startMotor MotorDirection.FORWARD tUp { s with btnUpActive := true }
    else if (!r.up2 && s.btnUpActive) = true then
      stopMotor { s with btnUpActive := false }
    else s).stream = s.stream := by
    split_ifs
    · exact (startMotor_frame _ _ _).1
    · exact (stopMotor_frame _).1
    · rfl
  have hdown : ∀ s1 : Controller,
      (if (r.down1 && !s1.btnDownActive) = true then
        startMotor MotorDirection.BACKWARD tDown { s1 with btnDownActive := true }
      else if (!r.down2 && s1.btnDownActive) = true then
        stopMotor { s1 with btnDownActive := false }
      else s1).stream = s1.stream := by
    intro s1
    split_ifs
    · exact (startMotor_frame _ _ _).1
    · exact (stopMotor_frame _).1
    · rfl
  exact (hdown _).trans hup

theorem handleBluetoothCommands_stream (now : Nat) (s : Controller) :
    (handleBluetoothCommands now s).stream = s.stream.tail := by
  unfold handleBluetoothCommands
  split
  · rename_i h
    rw [h]
    rfl
  · rename_i b rest h
    rw [h]
    simp only []
    split_ifs
    · exact (startMotor_frame _ _ _).1
    · exact (startMotor_frame _ _ _).1
    · exact (stopMotor_frame _).1
    · rfl

theorem receive_nil (s : Controller) : receive [] s = s := by
  cases s
  simp [receive]

theorem handlePhysicalButtons_idle {s : Controller} (tUp tDown : Nat)
    (hu : s.btnUpActive = false) (hd : s.btnDownActive = false) :
    handlePhysicalButtons (ButtonReads.stable false false) tUp tDown s = s := by
  unfold handlePhysicalButtons
  simp [ButtonReads.stable, hu, hd]

theorem stopMotor_of_moving {s : Controller} (hs : s.motorState ≠ MotorState.STOPPED) :
    stopMotor s = ledcWrite 0 (digitalWritePin2 LOW
      (digitalWritePin1 LOW { s with motorState := MotorState.STOPPED })) := by
  unfold stopMotor
  rw [if_pos hs]

theorem startMotor_of_stopped {s : Controller} (dir : MotorDirection) (now : Nat)
    (hs : s.motorState = MotorState.STOPPED) :
    (startMotor dir now s).motorState = MotorState.RAMPING ∧
    (startMotor dir now s).motorDirection = dir := by
  unfold startMotor
  rw [if_pos hs]
  split_ifs <;> exact ⟨rfl, rfl⟩

/-- One iteration with idle buttons and `'F'` waiting: the byte is read and the motor
started forward, then ticked. -/
theorem loop_idle_F {s : Controller} {i : LoopInput} {rest : List Nat}
    (hu : s.btnUpActive = false) (hd : s.btnDownActive = false)
    (hstream : s.stream = 70 :: rest)
    (ha : i.arrived = []) (hr : i.reads = ButtonReads.stable false false) :
    loop i s = updateMotor i.tTick
      (startMotor MotorDirection.FORWARD i.tCmd { s with stream := rest }) := by
  have hframe := startMotor_frame MotorDirection.FORWARD i.tCmd { s with stream := rest }
  unfold loop
  rw [ha, hr, receive_nil, handleBluetoothCommands_cons i.tCmd (by decide) hstream,
    if_pos (Or.inl rfl),
    handlePhysicalButtons_idle _ _ (hframe.2.1.trans hu) (hframe.2.2.trans hd)]

/-- One iteration with idle buttons and `'S'` waiting: the byte is read and the motor
stopped; the tick then has nothing to do. -/
theorem loop_idle_S {s : Controller} {i : LoopInput} {rest : List Nat}
    (hu : s.btnUpActive = false) (hd : s.btnDownActive = false)
    (hstream : s.stream = 83 :: rest)
    (ha : i.arrived = []) (hr : i.reads = ButtonReads.stable false false) :
    loop i s = stopMotor { s with stream := rest } := by
  have hstop := stopMotor_motorState { s with stream := rest }
  have hframe := stopMotor_frame { s with stream := rest }
  unfold loop
  rw [ha, hr, receive_nil, handleBluetoothCommands_cons i.tCmd (by decide) hstream,
    if_neg (by decide), if_neg (by decide), if_pos (Or.inl rfl),
    handlePhysicalButtons_idle _ _ (hframe.2.1.trans hu) (hframe.2.2.trans hd),
    updateMotor_of_not_ramping _ (by rw [hstop]; decide)]

/-! ## The two button checks -/

theorem handlePhysicalButtons_eq (r : ButtonReads) (tUp tDown : Nat) (s : Controller) :
    handlePhysicalButtons r tUp tDown s
      = checkButtonDown r tDown (checkButtonUp r tUp s) := rfl

theorem checkButtonUp_btnDownActive (r : ButtonReads) (tUp : Nat) (s : Controller) :
    (checkButtonUp r tUp s).btnDownActive = s.btnDownActive := by
  unfold checkButtonUp
  split_ifs
  · exact (startMotor_frame _ _ _).2.2
  · exact (stopMotor_frame _).2.2
  · rfl

theorem checkButtonUp_btnUpActive (u d : Bool) (tUp : Nat) (s : Controller) :
    (checkButtonUp (ButtonReads.stable u d) tUp s).btnUpActive = u := by
  unfold checkButtonUp
  split_ifs with h1 h2
  · rw [(startMotor_frame _ _ _).2.1]
    simp [ButtonReads.stable] at h1
    exact h1.1.symm
  · rw [(stopMotor_frame _).2.1]
    simp [ButtonReads.stable] at h2
    exact h2.1.symm
  · simp [ButtonReads.stable] at h1 h2
    cases u <;> simp_all

theorem checkButtonDown_btnUpActive (r : ButtonReads) (tDown : Nat) (s : Controller) :
    (checkButtonDown r tDown s).btnUpActive = s.btnUpActive := by
  unfold checkButtonDown
  split_ifs
  · exact (startMotor_frame _ _ _).2.1
  · exact (stopMotor_frame _).2.1
  · rfl

theorem checkButtonDown_btnDownActive (u d : Bool) (tDown : Nat) (s : Controller) :
    (checkButtonDown (ButtonReads.stable u d) tDown s).btnDownActive = d := by
  unfold checkButtonDown
  split_ifs with h1 h2
  · rw [(startMotor_frame _ _ _).2.2]
    simp [ButtonReads.stable] at h1
    exact h1.1.symm
  · rw [(stopMotor_frame _).2.2]
    simp [ButtonReads.stable] at h2
    exact h2.1.symm
  · simp [ButtonReads.stable] at h1 h2
    cases d <;> simp_all

/-- A button check whose level agrees with the flag does nothing. -/
theorem checkButtonUp_of_eq {s : Controller} (u d : Bool) (tUp : Nat)
    (h : s.btnUpActive = u) : checkButtonUp (ButtonReads.stable u d) tUp s = s := by
  unfold checkButtonUp
  cases u <;> simp [ButtonReads.stable, h]

theorem checkButtonDown_of_eq {s : Controller} (u d : Bool) (tDown : Nat)
    (h : s.btnDownActive = d) : checkButtonDown (ButtonReads.stable u d) tDown s = s := by
  unfold checkButtonDown
  cases d <;> simp [ButtonReads.stable, h]

/-- A falling edge: the flag is set and the level is low. -/
theorem checkButtonUp_release {s : Controller} (d : Bool) (tUp : Nat)
    (h : s.btnUpActive = true) :
    checkButtonUp (ButtonReads.stable false d) tUp s
      = stopMotor { s with btnUpActive := false } := by
  unfold checkButtonUp
  simp [ButtonReads.stable, h]

theorem checkButtonDown_release {s : Controller} (u : Bool) (tDown : Nat)
    (h : s.btnDownActive = true) :
    checkButtonDown (ButtonReads.stable u false) tDown s
      = stopMotor { s with btnDownActive := false } := by
  unfold checkButtonDown
  simp [ButtonReads.stable, h]

/-- A rising edge: the flag is clear and the level is high. -/
theorem checkButtonUp_press {s : Controller} (d : Bool) (tUp : Nat)
    (h : s.btnUpActive = false) :
    checkButtonUp (ButtonReads.stable true d) tUp s
      = startMotor MotorDirection.FORWARD tUp { s with btnUpActive := true } := by
  unfold checkButtonUp
  simp [ButtonReads.stable, h]

theorem checkButtonDown_press {s : Controller} (u : Bool) (tDown : Nat)
    (h : s.btnDownActive = false) :
    checkButtonDown (ButtonReads.stable u true) tDown s
      = startMotor MotorDirection.BACKWARD tDown { s with btnDownActive := true } := by
  unfold checkButtonDown
  simp [ButtonReads.stable, h]

theorem handlePhysicalButtons_of_eq {s : Controller} (u d : Bool) (tUp tDown : Nat)
    (hu : s.btnUpActive = u) (hd : s.btnDownActive = d) :
    handlePhysicalButtons (ButtonReads.stable u d) tUp tDown s = s := by
  rw [handlePhysicalButtons_eq, checkButtonUp_of_eq u d tUp hu,
    checkButtonDown_of_eq u d tDown hd]

theorem polls_of_eq {s : Controller} (u d : Bool) (hu : s.btnUpActive = u)
    (hd : s.btnDownActive = d) (clocks : List (Nat × Nat)) : polls u d s clocks = s := by
  induction clocks with
  | nil => rfl
  | cons c cs ih =>
    show polls u d (handlePhysicalButtons (ButtonReads.stable u d) c.1 c.2 s) cs = s
    rw [handlePhysicalButtons_of_eq u d c.1 c.2 hu hd, ih]

/-! ## The ramp across the wrap of the counter -/

theorem startMotor_rampStartTime {s : Controller} (dir : MotorDirection) (now : Nat)
    (hs : s.motorState = MotorState.STOPPED) :
    (startMotor dir now s).rampStartTime = millis now := by
  unfold startMotor
  rw [if_pos hs]
  split_ifs <;> rfl

/-- A tick of a RAMPING controller whose ramp started at true time `t0`, at a true time
`t` less than `2 ^ 32` ms later. -/
theorem updateMotor_on_ramp {s : Controller} {t0 t : Nat}
    (hs : s.motorState = MotorState.RAMPING) (hst : s.rampStartTime = millis t0)
    (h0 : t0 ≤ t) (hb : t < t0 + 2 ^ 32) :
    (t - t0 < 1000 →
      (updateMotor t s).duty = (t - t0) * 255 / 1000 ∧
      (updateMotor t s).writes = s.writes ++ [ActuatorWrite.duty ((t - t0) * 255 / 1000)] ∧
      (updateMotor t s).motorState = MotorState.RAMPING) ∧
    (1000 ≤ t - t0 →
      (updateMotor t s).duty = 255 ∧
      (updateMotor t s).writes = s.writes ++ [ActuatorWrite.duty 255] ∧
      (updateMotor t s).motorState = MotorState.RUNNING) := by
  have hel : elapsedTime t s = t - t0 := elapsedTime_eq hst h0 hb
  constructor
  · intro hlt
    have hlt' : elapsedTime t s < 1000 := by rw [hel]; exact hlt
    have he : elapsedTime t s < RAMP_DURATION := hlt'
    rw [updateMotor_of_ramping hs he, ledcWrite_duty, ledcWrite_writes,
      ledcWrite_ramp_duty hlt', hel]
    exact ⟨rfl, rfl, hs⟩
  · intro hge
    have he : RAMP_DURATION ≤ elapsedTime t s := by rw [hel]; exact hge
    rw [updateMotor_of_ramp_done hs he]
    exact ⟨rfl, rfl, rfl⟩

/-! ## The writes of a start, a stop and a tick -/

theorem startMotor_forward_of_stopped {s : Controller} (now : Nat)
    (hs : s.motorState = MotorState.STOPPED) :
    (startMotor MotorDirection.FORWARD now s).motor1Pin1 = HIGH ∧
    (startMotor MotorDirection.FORWARD now s).motor1Pin2 = LOW ∧
    (startMotor MotorDirection.FORWARD now s).writes
      = s.writes ++ [ActuatorWrite.pin1 HIGH, ActuatorWrite.pin2 LOW] := by
  unfold startMotor
  rw [if_pos hs, if_pos rfl]
  simp [digitalWritePin1, digitalWritePin2]

theorem startMotor_backward_of_stopped {s : Controller} (now : Nat)
    (hs : s.motorState = MotorState.STOPPED) :
    (startMotor MotorDirection.BACKWARD now s).motor1Pin1 = LOW ∧
    (startMotor MotorDirection.BACKWARD now s).motor1Pin2 = HIGH ∧
    (startMotor MotorDirection.BACKWARD now s).writes
      = s.writes ++ [ActuatorWrite.pin1 LOW, ActuatorWrite.pin2 HIGH] := by
  unfold startMotor
  rw [if_pos hs, if_neg (by decide)]
  simp [digitalWritePin1, digitalWritePin2]

theorem stopMotor_writes_of_moving {s : Controller}
    (hs : s.motorState ≠ MotorState.STOPPED) :
    (stopMotor s).writes
      = s.writes ++ [ActuatorWrite.pin1 LOW, ActuatorWrite.pin2 LOW, ActuatorWrite.duty 0] := by
  rw [stopMotor_of_moving hs]
  simp [ledcWrite, digitalWritePin1, digitalWritePin2]

theorem updateMotor_pins (now : Nat) (s : Controller) :
    (updateMotor now s).motor1Pin1 = s.motor1Pin1 ∧
    (updateMotor now s).motor1Pin2 = s.motor1Pin2 := by
  by_cases hs : s.motorState = MotorState.RAMPING
  · by_cases he : RAMP_DURATION ≤ elapsedTime now s
    · rw [updateMotor_of_ramp_done hs he]
      exact ⟨rfl, rfl⟩
    · rw [updateMotor_of_ramping hs (by omega)]
      exact ⟨rfl, rfl⟩
  · rw [updateMotor_of_not_ramping now hs]
    exact ⟨rfl, rfl⟩

/-- A tick of a RAMPING controller makes exactly one write, of a duty cycle. -/
theorem updateMotor_writes_of_ramping {s : Controller} (now : Nat)
    (hs : s.motorState = MotorState.RAMPING) :
    ∃ v, (updateMotor now s).writes = s.writes ++ [ActuatorWrite.duty v] := by
  by_cases he : RAMP_DURATION ≤ elapsedTime now s
  · rw [updateMotor_of_ramp_done hs he]
    exact ⟨_, rfl⟩
  · rw [updateMotor_of_ramping hs (by omega)]
    exact ⟨_, ledcWrite_writes _ _⟩

/-! ## The Start of a press -/

/-- A press of the FORWARD button with the motor STOPPED, the BACKWARD button not released
in the same poll: the poll starts the motor forward and writes the two pins once. -/
theorem handlePhysicalButtons_press_up {s : Controller} (d : Bool) (tUp tDown : Nat)
    (hs : s.motorState = MotorState.STOPPED) (hu : s.btnUpActive = false)
    (hd : ¬ (s.btnDownActive = true ∧ d = false)) :
    (handlePhysicalButtons (ButtonReads.stable true d) tUp tDown s).motorState
      = MotorState.RAMPING ∧
    (handlePhysicalButtons (ButtonReads.stable true d) tUp tDown s).motorDirection
      = MotorDirection.FORWARD ∧
    (handlePhysicalButtons (ButtonReads.stable true d) tUp tDown s).writes
      = s.writes ++ [ActuatorWrite.pin1 HIGH, ActuatorWrite.pin2 LOW] := by
  have hst : ({ s with btnUpActive := true } : Controller).motorState
      = MotorState.STOPPED := hs
  have hstart := startMotor_of_stopped MotorDirection.FORWARD tUp hst
  have hw := (startMotor_forward_of_stopped tUp hst).2.2
  have hfr := (startMotor_frame MotorDirection.FORWARD tUp { s with btnUpActive := true }).2.2
  have hflag : (startMotor MotorDirection.FORWARD tUp
      { s with btnUpActive := true }).btnDownActive = s.btnDownActive := hfr
  rw [handlePhysicalButtons_eq, checkButtonUp_press d tUp hu]
  by_cases heq : s.btnDownActive = d
  · rw [checkButtonDown_of_eq true d tDown (hflag.trans heq)]
    exact ⟨hstart.1, hstart.2, hw⟩
  · have hd0 : s.btnDownActive = false := by
      cases hb : s.btnDownActive
      · rfl
      · cases d
        · exact absurd ⟨hb, rfl⟩ hd
        · exact absurd hb heq
    have hd1 : d = true := by
      cases d
      · exact absurd hd0 heq
      · rfl
    subst hd1
    rw [checkButtonDown_press true tDown (hflag.trans hd0),
      startMotor_of_moving MotorDirection.BACKWARD tDown (by
        show (startMotor MotorDirection.FORWARD tUp
          { s with btnUpActive := true }).motorState ≠ MotorState.STOPPED
        rw [hstart.1]; decide)]
    exact ⟨hstart.1, hstart.2, hw⟩

/-- A press of the BACKWARD button with the motor STOPPED, the FORWARD button not pressed
in the same poll: the poll starts the motor backward and writes the two pins once. -/
theorem handlePhysicalButtons_press_down {s : Controller} (u : Bool) (tUp tDown : Nat)
    (hs : s.motorState = MotorState.STOPPED) (hd : s.btnDownActive = false)
    (hu : ¬ (s.btnUpActive = false ∧ u = true)) :
    (handlePhysicalButtons (ButtonReads.stable u true) tUp tDown s).motorState
      = MotorState.RAMPING ∧
    (handlePhysicalButtons (ButtonReads.stable u true) tUp tDown s).motorDirection
      = MotorDirection.BACKWARD ∧
    (handlePhysicalButtons (ButtonReads.stable u true) tUp tDown s).writes
      = s.writes ++ [ActuatorWrite.pin1 LOW, ActuatorWrite.pin2 HIGH] := by
  rw [handlePhysicalButtons_eq]
  by_cases heq : s.btnUpActive = u
  · have hst : ({ s with btnDownActive := true } : Controller).motorState
        = MotorState.STOPPED := hs
    rw [checkButtonUp_of_eq u true tUp heq, checkButtonDown_press u tDown hd]
    exact ⟨(startMotor_of_stopped MotorDirection.BACKWARD tDown hst).1,
      (startMotor_of_stopped MotorDirection.BACKWARD tDown hst).2,
      (startMotor_backward_of_stopped tDown hst).2.2⟩
  · have hu1 : s.btnUpActive = true := by
      cases hb : s.btnUpActive
      · cases u
        · exact absurd hb heq
        · exact absurd ⟨hb, rfl⟩ hu
      · rfl
    have hu0 : u = false := by
      cases u
      · rfl
      · exact absurd hu1 heq
    subst hu0
    have hst0 : ({ s with btnUpActive := false } : Controller).motorState
        = MotorState.STOPPED := hs
    have hst : ({ ({ s with btnUpActive := false } : Controller) with
        btnDownActive := true } : Controller).motorState = MotorState.STOPPED := hs
    rw [checkButtonUp_release true tUp hu1, stopMotor_of_stopped hst0,
      checkButtonDown_press false tDown (show ({ s with btnUpActive := false } :
        Controller).btnDownActive = false from hd)]
    exact ⟨(startMotor_of_stopped MotorDirection.BACKWARD tDown hst).1,
      (startMotor_of_stopped MotorDirection.BACKWARD tDown hst).2,
      (startMotor_backward_of_stopped tDown hst).2.2⟩

/-! ## The claims, continued -/

/-- C11: for every state with `motorState` not RAMPING (STOPPED or RUNNING) and every clock
value, `updateMotor()` is a no-op: it makes no actuator write, leaves `motorState`,
`motorDirection`, `rampStartTime`, both pins and the duty cycle unchanged, returns the
state as it was, and is therefore idempotent on such states. -/
theorem C11_update_noop (s : Controller) (now later : Nat)
    (hs : s.motorState ≠ MotorState.RAMPING) :
    (updateMotor now s).writes = s.writes ∧
    (updateMotor now s).motorState = s.motorState ∧
    (updateMotor now s).motorDirection = s.motorDirection ∧
    (updateMotor now s).rampStartTime = s.rampStartTime ∧
    (updateMotor now s).motor1Pin1 = s.motor1Pin1 ∧
    (updateMotor now s).motor1Pin2 = s.motor1Pin2 ∧
    (updateMotor now s).duty = s.duty ∧
    updateMotor now s = s ∧
    updateMotor later (updateMotor now s) = updateMotor now s := by
  rw [updateMotor_of_not_ramping now hs, updateMotor_of_not_ramping later hs]
  exact ⟨rfl, rfl, rfl, rfl, rfl, rfl, rfl, rfl, rfl⟩

theorem C11_update_noop_witness :
    (updateMotor 1000 (startMotor MotorDirection.FORWARD 0 powerOn)).motorState
      ≠ MotorState.RAMPING ∧
    updateMotor 2000 (updateMotor 1000 (startMotor MotorDirection.FORWARD 0 powerOn))
      = updateMotor 1000 (startMotor MotorDirection.FORWARD 0 powerOn) :=
  ⟨by decide,
   (C11_update_noop (updateMotor 1000 (startMotor MotorDirection.FORWARD 0 powerOn))
     2000 3000 (by decide)).2.2.2.2.2.2.2.1⟩

/-- C12: in every state reachable from power-on the duty cycle is at most
`MAX_DUTY_CYCLE = 255` (and at least 0, being a natural number), every duty cycle ever
written is at most 255, and the duty cycle is 255 exactly when `motorState` is RUNNING;
for `e < 1000` the product `e * 255` of the ramp interpolation lies in the range of a
32-bit `long`, so that the interpolation returns `e * 255 / 1000` without overflow. -/
theorem C12_duty_range (cs : List Call) (e : Nat) :
    (runCalls powerOn cs).duty ≤ 255 ∧
    (∀ v, ActuatorWrite.duty v ∈ (runCalls powerOn cs).writes → v ≤ 255) ∧
    ((runCalls powerOn cs).duty = 255 ↔
      (runCalls powerOn cs).motorState = MotorState.RUNNING) ∧
    (e < 1000 →
      (-2 ^ 31 ≤ (e : Int) * 255 ∧ (e : Int) * 255 < 2 ^ 31) ∧
      wrapLong ((e : Int) * 255) = (e : Int) * 255 ∧
      map (wrapLong (e : Int)) 0 RAMP_DURATION 0 MAX_DUTY_CYCLE
        = ((e * 255 / 1000 : Nat) : Int)) := by
  have hinv := Inv_runCalls cs Inv_powerOn
  have hcases : ∀ m : MotorState, m = MotorState.STOPPED ∨ m = MotorState.RAMPING ∨
      m = MotorState.RUNNING := by
    intro m; cases m <;> simp
  refine ⟨?_, dutyWritesBounded_runCalls cs dutyWritesBounded_powerOn, ?_, ?_⟩
  · rcases hcases (runCalls powerOn cs).motorState with h | h | h
    · rw [(hinv.stopped h).2.2]; omega
    · exact le_of_lt (hinv.ramping h)
    · rw [hinv.running h]
  · constructor
    · intro hd
      rcases hcases (runCalls powerOn cs).motorState with h | h | h
      · have := (hinv.stopped h).2.2
        omega
      · have := hinv.ramping h
        omega
      · exact h
    · exact hinv.running
  · intro he
    have hm := map_ramp he
    exact ⟨⟨by omega, by omega⟩, wrapLong_of_small (by omega) (by omega),
      by rw [← wrapLong_map]; exact hm⟩

theorem C12_duty_range_witness :
    500 < 1000 ∧
    (runCalls powerOn [Call.startMotor MotorDirection.FORWARD 0, Call.updateMotor 500]).duty
      ≤ 255 ∧
    map (wrapLong ((500 : Nat) : Int)) 0 RAMP_DURATION 0 MAX_DUTY_CYCLE
      = ((500 * 255 / 1000 : Nat) : Int) :=
  ⟨by decide,
   (C12_duty_range [Call.startMotor MotorDirection.FORWARD 0, Call.updateMotor 500] 500).1,
   ((C12_duty_range [Call.startMotor MotorDirection.FORWARD 0, Call.updateMotor 500]
     500).2.2.2 (by decide)).2.2⟩

/-- C13: for every state and every byte `c` at the head of the command stream,
`handleBluetoothCommands()` removes `c` and then has exactly the effect of
`startMotor(FORWARD)` if `c` is `'F'` or `'f'`, of `startMotor(BACKWARD)` if `c` is `'B'` or
`'b'`, of `stopMotor()` if `c` is `'S'` or `'s'`; for every other byte it makes no actuator
write and leaves the motor state, the pins, the duty cycle and both button flags
unchanged. -/
theorem C13_stream_mapping (s : Controller) (now c : Nat) (rest : List Nat) (hc : c < 256)
    (hs : s.stream = c :: rest) :
    (c = Char.toNat 'F' ∨ c = Char.toNat 'f' →
      handleBluetoothCommands now s
        = startMotor MotorDirection.FORWARD now { s with stream := rest }) ∧
    (c = Char.toNat 'B' ∨ c = Char.toNat 'b' →
      handleBluetoothCommands now s
        = startMotor MotorDirection.BACKWARD now { s with stream := rest }) ∧
    (c = Char.toNat 'S' ∨ c = Char.toNat 's' →
      handleBluetoothCommands now s = stopMotor { s with stream := rest }) ∧
    (¬ (c = Char.toNat 'F' ∨ c = Char.toNat 'f' ∨ c = Char.toNat 'B' ∨ c = Char.toNat 'b' ∨
        c = Char.toNat 'S' ∨ c = Char.toNat 's') →
      handleBluetoothCommands now s = { s with stream := rest } ∧
      (handleBluetoothCommands now s).writes = s.writes ∧
      (handleBluetoothCommands now s).motorState = s.motorState ∧
      (handleBluetoothCommands now s).motorDirection = s.motorDirection ∧
      (handleBluetoothCommands now s).rampStartTime = s.rampStartTime ∧
      (handleBluetoothCommands now s).motor1Pin1 = s.motor1Pin1 ∧
      (handleBluetoothCommands now s).motor1Pin2 = s.motor1Pin2 ∧
      (handleBluetoothCommands now s).duty = s.duty ∧
      (handleBluetoothCommands now s).btnUpActive = s.btnUpActive ∧
      (handleBluetoothCommands now s).btnDownActive = s.btnDownActive) := by
  have hF : Char.toNat 'F' = 70 := rfl
  have hf : Char.toNat 'f' = 102 := rfl
  have hB : Char.toNat 'B' = 66 := rfl
  have hb : Char.toNat 'b' = 98 := rfl
  have hS : Char.toNat 'S' = 83 := rfl
  have hsm : Char.toNat 's' = 115 := rfl
  rw [hF, hf, hB, hb, hS, hsm, handleBluetoothCommands_cons now hc hs]
  refine ⟨?_, ?_, ?_, ?_⟩
  · intro h
    rw [if_pos h]
  · intro h
    rw [if_neg (by omega), if_pos h]
  · intro h
    rw [if_neg (by omega), if_neg (by omega), if_pos h]
  · intro h
    rw [if_neg (by omega), if_neg (by omega), if_neg (by omega)]
    exact ⟨rfl, rfl, rfl, rfl, rfl, rfl, rfl, rfl, rfl, rfl⟩

theorem C13_stream_mapping_witness :
    (102 : Nat) < 256 ∧ (receive [102, 120] powerOn).stream = 102 :: [120] ∧
    handleBluetoothCommands 5 (receive [102, 120] powerOn)
      = startMotor MotorDirection.FORWARD 5
          { receive [102, 120] powerOn with stream := [120] } :=
  ⟨by decide, by decide,
   (C13_stream_mapping (receive [102, 120] powerOn) 5 102 [120] (by decide) (by decide)).1
     (Or.inr rfl)⟩

/-- C14: `handleBluetoothCommands()` consumes at most one byte per call, and `loop()` at
most one per iteration: on an empty stream the call changes nothing; on a stream
`b :: rest` exactly `b` is removed and `rest` is left, whatever `b` is; and after one
`loop()` iteration the stream is the one before it, with the bytes that arrived queued
behind, less its first byte. -/
theorem C14_one_byte_per_call (s : Controller) (now : Nat) (i : LoopInput) :
    (s.stream = [] → handleBluetoothCommands now s = s) ∧
    (∀ b rest, s.stream = b :: rest → (handleBluetoothCommands now s).stream = rest) ∧
    (loop i s).stream = (s.stream ++ i.arrived).tail := by
  refine ⟨?_, ?_, ?_⟩
  · intro h
    unfold handleBluetoothCommands
    rw [h]
  · intro b rest h
    rw [handleBluetoothCommands_stream, h]
    rfl
  · unfold loop
    rw [(updateMotor_frame _ _).1, handlePhysicalButtons_frame,
      handleBluetoothCommands_stream]
    rfl

theorem C14_one_byte_per_call_witness :
    (receive [70, 83, 1000] powerOn).stream = 70 :: [83, 1000] ∧
    (handleBluetoothCommands 3 (receive [70, 83, 1000] powerOn)).stream = [83, 1000] :=
  ⟨by decide,
   (C14_one_byte_per_call (receive [70, 83, 1000] powerOn) 3
     { arrived := [], reads := ButtonReads.stable false false,
       tCmd := 0, tUp := 0, tDown := 0, tTick := 0 }).2.1 70 [83, 1000] (by decide)⟩

/-- C15, as stated, fails: from power-on with both buttons idle and the stream holding
`'F'`, `'S'`, one `loop()` iteration reads only `'F'`; the motor is then RAMPING, not
STOPPED, `'S'` is still waiting, and the pins are set for forward, not cleared. -/
theorem C15_one_cycle_counterexample :
    (loop { arrived := [], reads := ButtonReads.stable false false,
            tCmd := 0, tUp := 0, tDown := 0, tTick := 0 }
        (receive [Char.toNat 'F', Char.toNat 'S'] powerOn)).motorState
      = MotorState.RAMPING ∧
    (loop { arrived := [], reads := ButtonReads.stable false false,
            tCmd := 0, tUp := 0, tDown := 0, tTick := 0 }
        (receive [Char.toNat 'F', Char.toNat 'S'] powerOn)).motorState
      ≠ MotorState.STOPPED ∧
    (loop { arrived := [], reads := ButtonReads.stable false false,
            tCmd := 0, tUp := 0, tDown := 0, tTick := 0 }
        (receive [Char.toNat 'F', Char.toNat 'S'] powerOn)).stream
      = [Char.toNat 'S'] ∧
    (loop { arrived := [], reads := ButtonReads.stable false false,
            tCmd := 0, tUp := 0, tDown := 0, tTick := 0 }
        (receive [Char.toNat 'F', Char.toNat 'S'] powerOn)).motor1Pin1 = HIGH ∧
    (loop { arrived := [], reads := ButtonReads.stable false false,
            tCmd := 0, tUp := 0, tDown := 0, tTick := 0 }
        (receive [Char.toNat 'F', Char.toNat 'S'] powerOn)).motor1Pin2 = LOW := by
  decide

/-- C15, amended: starting from STOPPED with both buttons idle and the stream holding
`'F'`, `'S'`, with no further bytes arriving, the first `loop()` iteration processes `'F'`
only (the motor moves forward, `'S'` is still waiting) and the second processes `'S'`:
after two iterations both bytes have been processed, `motorState` is STOPPED, both pins
are LOW and the duty cycle is 0.  The pins are set in the first iteration, which writes
`motor1Pin1` HIGH and `motor1Pin2` LOW and then one duty cycle of the ramp, and cleared in
the second, which writes both pins LOW and duty cycle 0. -/
theorem C15_two_cycles (s : Controller) (i₁ i₂ : LoopInput)
    (hs : s.motorState = MotorState.STOPPED)
    (hu : s.btnUpActive = false) (hd : s.btnDownActive = false)
    (hstream : s.stream = [Char.toNat 'F', Char.toNat 'S'])
    (ha₁ : i₁.arrived = []) (hr₁ : i₁.reads = ButtonReads.stable false false)
    (ha₂ : i₂.arrived = []) (hr₂ : i₂.reads = ButtonReads.stable false false) :
    (loop i₁ s).motorState ≠ MotorState.STOPPED ∧
    (loop i₁ s).motorDirection = MotorDirection.FORWARD ∧
    (loop i₁ s).stream = [Char.toNat 'S'] ∧
    (loop i₂ (loop i₁ s)).motorState = MotorState.STOPPED ∧
    (loop i₂ (loop i₁ s)).stream = [] ∧
    (loop i₂ (loop i₁ s)).motor1Pin1 = LOW ∧
    (loop i₂ (loop i₁ s)).motor1Pin2 = LOW ∧
    (loop i₂ (loop i₁ s)).duty = 0 ∧
    (loop i₁ s).motor1Pin1 = HIGH ∧
    (loop i₁ s).motor1Pin2 = LOW ∧
    (∃ v, (loop i₁ s).writes
      = s.writes ++ [ActuatorWrite.pin1 HIGH, ActuatorWrite.pin2 LOW, ActuatorWrite.duty v]) ∧
    (loop i₂ (loop i₁ s)).writes
      = (loop i₁ s).writes
        ++ [ActuatorWrite.pin1 LOW, ActuatorWrite.pin2 LOW, ActuatorWrite.duty 0] := by
  have hF : Char.toNat 'F' = 70 := rfl
  have hS : Char.toNat 'S' = 83 := rfl
  rw [hF, hS] at hstream
  rw [hS]
  have hstart := startMotor_of_stopped (s := { s with stream := [83] })
    MotorDirection.FORWARD i₁.tCmd hs
  have hframe := startMotor_frame MotorDirection.FORWARD i₁.tCmd { s with stream := [83] }
  have h1 : loop i₁ s = updateMotor i₁.tTick
      (startMotor MotorDirection.FORWARD i₁.tCmd { s with stream := [83] }) :=
    loop_idle_F hu hd hstream ha₁ hr₁
  have hm1 : (loop i₁ s).motorState ≠ MotorState.STOPPED := by
    rw [h1, Ne, updateMotor_stopped_iff, hstart.1]
    decide
  have hd1 : (loop i₁ s).motorDirection = MotorDirection.FORWARD := by
    rw [h1, updateMotor_motorDirection, hstart.2]
  have hs1 : (loop i₁ s).stream = [83] := by
    rw [h1, (updateMotor_frame _ _).1, hframe.1]
  have hu1 : (loop i₁ s).btnUpActive = false := by
    rw [h1, (updateMotor_frame _ _).2.1, hframe.2.1]; exact hu
  have hd1' : (loop i₁ s).btnDownActive = false := by
    rw [h1, (updateMotor_frame _ _).2.2, hframe.2.2]; exact hd
  have hstop := stopMotor_motorState { loop i₁ s with stream := [] }
  have hframe2 := stopMotor_frame { loop i₁ s with stream := [] }
  have h2 : loop i₂ (loop i₁ s) = stopMotor { loop i₁ s with stream := [] } :=
    loop_idle_S hu1 hd1' hs1 ha₂ hr₂
  have hpins := startMotor_forward_of_stopped (s := { s with stream := [83] }) i₁.tCmd hs
  have hw1 : ∃ v, (loop i₁ s).writes
      = s.writes ++ [ActuatorWrite.pin1 HIGH, ActuatorWrite.pin2 LOW, ActuatorWrite.duty v] := by
    obtain ⟨v, hv⟩ := updateMotor_writes_of_ramping i₁.tTick hstart.1
    refine ⟨v, ?_⟩
    rw [h1, hv, hpins.2.2]
    simp
  have hw2 : (loop i₂ (loop i₁ s)).writes
      = (loop i₁ s).writes
        ++ [ActuatorWrite.pin1 LOW, ActuatorWrite.pin2 LOW, ActuatorWrite.duty 0] := by
    rw [h2]
    exact stopMotor_writes_of_moving (s := { loop i₁ s with stream := [] }) hm1
  refine ⟨hm1, hd1, hs1, ?_, ?_, ?_, ?_, ?_, ?_, ?_, hw1, hw2⟩
  · rw [h2]; exact hstop
  · rw [h2]; exact hframe2.1
  · rw [h2, stopMotor_of_moving (s := { loop i₁ s with stream := [] }) hm1]; rfl
  · rw [h2, stopMotor_of_moving (s := { loop i₁ s with stream := [] }) hm1]; rfl
  · rw [h2, stopMotor_of_moving (s := { loop i₁ s with stream := [] }) hm1]; rfl
  · rw [h1, (updateMotor_pins _ _).1]; exact hpins.1
  · rw [h1, (updateMotor_pins _ _).2]; exact hpins.2.1

theorem C15_two_cycles_witness :
    (receive [Char.toNat 'F', Char.toNat 'S'] powerOn).motorState = MotorState.STOPPED ∧
    (loop { arrived := [], reads := ButtonReads.stable false false,
            tCmd := 10, tUp := 10, tDown := 10, tTick := 11 }
      (loop { arrived := [], reads := ButtonReads.stable false false,
              tCmd := 0, tUp := 0, tDown := 0, tTick := 1 }
        (receive [Char.toNat 'F', Char.toNat 'S'] powerOn))).motorState
      = MotorState.STOPPED ∧
    (loop { arrived := [], reads := ButtonReads.stable false false,
            tCmd := 0, tUp := 0, tDown := 0, tTick := 1 }
      (receive [Char.toNat 'F', Char.toNat 'S'] powerOn)).motor1Pin1 = HIGH ∧
    (loop { arrived := [], reads := ButtonReads.stable false false,
            tCmd := 10, tUp := 10, tDown := 10, tTick := 11 }
      (loop { arrived := [], reads := ButtonReads.stable false false,
              tCmd := 0, tUp := 0, tDown := 0, tTick := 1 }
        (receive [Char.toNat 'F', Char.toNat 'S'] powerOn))).motor1Pin1 = LOW :=
  ⟨by decide,
   (C15_two_cycles (receive [Char.toNat 'F', Char.toNat 'S'] powerOn)
     { arrived := [], reads := ButtonReads.stable false false,
       tCmd := 0, tUp := 0, tDown := 0, tTick := 1 }
     { arrived := [], reads := ButtonReads.stable false false,
       tCmd := 10, tUp := 10, tDown := 10, tTick := 11 }
     (by decide) (by decide) (by decide) (by decide) rfl rfl rfl rfl).2.2.2.1,
   (C15_two_cycles (receive [Char.toNat 'F', Char.toNat 'S'] powerOn)
     { arrived := [], reads := ButtonReads.stable false false,
       tCmd := 0, tUp := 0, tDown := 0, tTick := 1 }
     { arrived := [], reads := ButtonReads.stable false false,
       tCmd := 10, tUp := 10, tDown := 10, tTick := 11 }
     (by decide) (by decide) (by decide) (by decide) rfl rfl rfl rfl).2.2.2.2.2.2.2.2.1,
   (C15_two_cycles (receive [Char.toNat 'F', Char.toNat 'S'] powerOn)
     { arrived := [], reads := ButtonReads.stable false false,
       tCmd := 0, tUp := 0, tDown := 0, tTick := 1 }
     { arrived := [], reads := ButtonReads.stable false false,
       tCmd := 10, tUp := 10, tDown := 10, tTick := 11 }
     (by decide) (by decide) (by decide) (by decide) rfl rfl rfl rfl).2.2.2.2.2.1⟩

/-- C16, as stated, fails: with the FORWARD button held (flag set, motor RAMPING forward),
a poll that sees FORWARD low and BACKWARD high issues the Stop of the release and then the
Start(Backward) of the press: the motor ends RAMPING backward, not STOPPED. -/
theorem C16_release_and_press_counterexample :
    (handlePhysicalButtons (ButtonReads.stable true false) 0 0 powerOn).btnUpActive = true ∧
    (handlePhysicalButtons (ButtonReads.stable true false) 0 0 powerOn).motorState
      = MotorState.RAMPING ∧
    (handlePhysicalButtons (ButtonReads.stable false true) 10 10
      (handlePhysicalButtons (ButtonReads.stable true false) 0 0 powerOn)).motorState
      ≠ MotorState.STOPPED ∧
    (handlePhysicalButtons (ButtonReads.stable false true) 10 10
      (handlePhysicalButtons (ButtonReads.stable true false) 0 0 powerOn)).motorDirection
      = MotorDirection.BACKWARD := by
  decide

/-- C16, amended: for every controller state and every pair of polled levels `(u, d)`,
after `handlePhysicalButtons()` the motor is STOPPED if the BACKWARD button is released
(flag set, polled low), or if the FORWARD button is released and the BACKWARD button is not
pressed in the same poll (polled high with its flag clear); this does not depend on which
button started the motion.  In the remaining case, FORWARD released and BACKWARD pressed
in the same poll, the motor is RAMPING backward. -/
theorem C16_release_stops (s : Controller) (u d : Bool) (tUp tDown : Nat) :
    (s.btnDownActive = true ∧ d = false →
      (handlePhysicalButtons (ButtonReads.stable u d) tUp tDown s).motorState
        = MotorState.STOPPED) ∧
    (s.btnUpActive = true ∧ u = false ∧ ¬ (d = true ∧ s.btnDownActive = false) →
      (handlePhysicalButtons (ButtonReads.stable u d) tUp tDown s).motorState
        = MotorState.STOPPED) ∧
    (s.btnUpActive = true ∧ u = false ∧ d = true ∧ s.btnDownActive = false →
      (handlePhysicalButtons (ButtonReads.stable u d) tUp tDown s).motorState
        = MotorState.RAMPING ∧
      (handlePhysicalButtons (ButtonReads.stable u d) tUp tDown s).motorDirection
        = MotorDirection.BACKWARD) := by
  refine ⟨?_, ?_, ?_⟩
  · rintro ⟨ha, rfl⟩
    rw [handlePhysicalButtons_eq,
      checkButtonDown_release u tDown ((checkButtonUp_btnDownActive _ _ _).trans ha)]
    exact stopMotor_motorState _
  · rintro ⟨ha, rfl, hno⟩
    rw [handlePhysicalButtons_eq, checkButtonUp_release d tUp ha]
    have hflag : (stopMotor { s with btnUpActive := false }).btnDownActive
        = s.btnDownActive := (stopMotor_frame _).2.2
    by_cases hd : s.btnDownActive = true
    · cases d
      · rw [checkButtonDown_release false tDown (hflag.trans hd)]
        exact stopMotor_motorState _
      · rw [checkButtonDown_of_eq false true tDown (hflag.trans hd)]
        exact stopMotor_motorState _
    · -- flag clear, so the level is low and nothing happens
      have hd0 : s.btnDownActive = false := by simpa using hd
      have hdl : d = false := by
        cases d
        · rfl
        · exact absurd ⟨rfl, hd0⟩ hno
      subst hdl
      rw [checkButtonDown_of_eq false false tDown (hflag.trans hd0)]
      exact stopMotor_motorState _
  · rintro ⟨ha, rfl, rfl, hd⟩
    have hflag : (stopMotor { s with btnUpActive := false }).btnDownActive = false :=
      ((stopMotor_frame _).2.2).trans hd
    rw [handlePhysicalButtons_eq, checkButtonUp_release true tUp ha,
      checkButtonDown_press false tDown hflag]
    exact startMotor_of_stopped MotorDirection.BACKWARD tDown (stopMotor_motorState _)

theorem C16_release_stops_witness :
    ((handlePhysicalButtons (ButtonReads.stable true true) 0 0 powerOn).btnDownActive = true ∧
      false = false) ∧
    (handlePhysicalButtons (ButtonReads.stable true false) 10 10
      (handlePhysicalButtons (ButtonReads.stable true true) 0 0 powerOn)).motorState
      = MotorState.STOPPED :=
  ⟨by decide,
   (C16_release_stops (handlePhysicalButtons (ButtonReads.stable true true) 0 0 powerOn)
     true false 10 10).1 (by decide)⟩

/-- C17, as stated, fails: from power-on, after a poll with FORWARD high and BACKWARD low, a
second poll that again sees BACKWARD low (never seen high) and FORWARD still high fires no
Stop: the motor is still RAMPING, not STOPPED, and nothing was written. -/
theorem C17_no_spurious_stop_counterexample :
    (handlePhysicalButtons (ButtonReads.stable true false) 5 5
      (handlePhysicalButtons (ButtonReads.stable true false) 0 0 powerOn)).motorState
      = MotorState.RAMPING ∧
    (handlePhysicalButtons (ButtonReads.stable true false) 5 5
      (handlePhysicalButtons (ButtonReads.stable true false) 0 0 powerOn)).motorState
      ≠ MotorState.STOPPED ∧
    (handlePhysicalButtons (ButtonReads.stable true false) 5 5
      (handlePhysicalButtons (ButtonReads.stable true false) 0 0 powerOn)).writes
      = (handlePhysicalButtons (ButtonReads.stable true false) 0 0 powerOn).writes := by
  decide

/-- C17, amended: from power-on, a poll with FORWARD high and BACKWARD low starts the motor
forward (RAMPING, FORWARD, the BACKWARD flag still clear); a following poll in which
BACKWARD is seen low without ever having been seen high, FORWARD still held, fires no Stop
and changes nothing, so `motorState` is still RAMPING. -/
theorem C17_no_spurious_stop (tUp tDown tUp2 tDown2 : Nat) :
    (handlePhysicalButtons (ButtonReads.stable true false) tUp tDown powerOn).motorState
      = MotorState.RAMPING ∧
    (handlePhysicalButtons (ButtonReads.stable true false) tUp tDown powerOn).motorDirection
      = MotorDirection.FORWARD ∧
    (handlePhysicalButtons (ButtonReads.stable true false) tUp tDown powerOn).btnDownActive
      = false ∧
    handlePhysicalButtons (ButtonReads.stable true false) tUp2 tDown2
        (handlePhysicalButtons (ButtonReads.stable true false) tUp tDown powerOn)
      = handlePhysicalButtons (ButtonReads.stable true false) tUp tDown powerOn ∧
    (handlePhysicalButtons (ButtonReads.stable true false) tUp2 tDown2
        (handlePhysicalButtons (ButtonReads.stable true false) tUp tDown powerOn)).motorState
      = MotorState.RAMPING := by
  have hup : powerOn.btnUpActive = false := rfl
  have hst : ({ powerOn with btnUpActive := true } : Controller).motorState
      = MotorState.STOPPED := rfl
  have hfr := startMotor_frame MotorDirection.FORWARD tUp { powerOn with btnUpActive := true }
  have h1 : handlePhysicalButtons (ButtonReads.stable true false) tUp tDown powerOn
      = startMotor MotorDirection.FORWARD tUp { powerOn with btnUpActive := true } := by
    rw [handlePhysicalButtons_eq, checkButtonUp_press false tUp hup,
      checkButtonDown_of_eq true false tDown (hfr.2.2.trans rfl)]
  have hstart := startMotor_of_stopped MotorDirection.FORWARD tUp hst
  have hfix : handlePhysicalButtons (ButtonReads.stable true false) tUp2 tDown2
        (handlePhysicalButtons (ButtonReads.stable true false) tUp tDown powerOn)
      = handlePhysicalButtons (ButtonReads.stable true false) tUp tDown powerOn := by
    apply handlePhysicalButtons_of_eq
    · rw [h1]; exact hfr.2.1.trans rfl
    · rw [h1]; exact hfr.2.2.trans rfl
  refine ⟨?_, ?_, ?_, hfix, ?_⟩
  · rw [h1]; exact hstart.1
  · rw [h1]; exact hstart.2
  · rw [h1]; exact hfr.2.2.trans rfl
  · rw [hfix, h1]; exact hstart.1

/-- C18: button polling is edge-triggered and deduplicating.  For every controller state
and every pair of levels `(u, d)`, after `handlePhysicalButtons()` with these levels the
flags are `btnUpActive = u` and `btnDownActive = d`; a second poll with the same levels
returns the state unchanged (no field changes, no actuator write), so polling twice is
polling once, and so does any number of further polls.  A held button emits exactly one
Start: the poll that sees the press (flag clear, level high) makes the one `startMotor`
call for that button, a poll whose levels equal the flags makes no call at all, and with
the motor STOPPED at the press (and no edge of the other button overriding it) the motor
is RAMPING in that direction and the write trace has grown by exactly the two pin writes
of that Start, however many polls follow while the button is held. -/
theorem C18_poll_idempotent (s : Controller) (u d : Bool) (tUp tDown tUp2 tDown2 : Nat)
    (more : List (Nat × Nat)) :
    (handlePhysicalButtons (ButtonReads.stable u d) tUp tDown s).btnUpActive = u ∧
    (handlePhysicalButtons (ButtonReads.stable u d) tUp tDown s).btnDownActive = d ∧
    handlePhysicalButtons (ButtonReads.stable u d) tUp2 tDown2
        (handlePhysicalButtons (ButtonReads.stable u d) tUp tDown s)
      = handlePhysicalButtons (ButtonReads.stable u d) tUp tDown s ∧
    (handlePhysicalButtons (ButtonReads.stable u d) tUp2 tDown2
        (handlePhysicalButtons (ButtonReads.stable u d) tUp tDown s)).writes
      = (handlePhysicalButtons (ButtonReads.stable u d) tUp tDown s).writes ∧
    polls u d (handlePhysicalButtons (ButtonReads.stable u d) tUp tDown s) more
      = handlePhysicalButtons (ButtonReads.stable u d) tUp tDown s ∧
    (s.btnUpActive = false → u = true →
      handlePhysicalButtons (ButtonReads.stable u d) tUp tDown s
        = checkButtonDown (ButtonReads.stable u d) tDown
            (startMotor MotorDirection.FORWARD tUp { s with btnUpActive := true })) ∧
    (s.btnDownActive = false → d = true →
      handlePhysicalButtons (ButtonReads.stable u d) tUp tDown s
        = startMotor MotorDirection.BACKWARD tDown
            { checkButtonUp (ButtonReads.stable u d) tUp s with btnDownActive := true }) ∧
    (s.btnUpActive = u → s.btnDownActive = d →
      handlePhysicalButtons (ButtonReads.stable u d) tUp tDown s = s) ∧
    (s.motorState = MotorState.STOPPED → s.btnUpActive = false → u = true →
      ¬ (s.btnDownActive = true ∧ d = false) →
      (handlePhysicalButtons (ButtonReads.stable u d) tUp tDown s).motorState
        = MotorState.RAMPING ∧
      (handlePhysicalButtons (ButtonReads.stable u d) tUp tDown s).motorDirection
        = MotorDirection.FORWARD ∧
      (handlePhysicalButtons (ButtonReads.stable u d) tUp tDown s).writes
        = s.writes ++ [ActuatorWrite.pin1 HIGH, ActuatorWrite.pin2 LOW] ∧
      (polls u d (handlePhysicalButtons (ButtonReads.stable u d) tUp tDown s) more).motorState
        = MotorState.RAMPING ∧
      (polls u d (handlePhysicalButtons (ButtonReads.stable u d) tUp tDown s) more).writes
        = s.writes ++ [ActuatorWrite.pin1 HIGH, ActuatorWrite.pin2 LOW]) ∧
    (s.motorState = MotorState.STOPPED → s.btnDownActive = false → d = true →
      ¬ (s.btnUpActive = false ∧ u = true) →
      (handlePhysicalButtons (ButtonReads.stable u d) tUp tDown s).motorState
        = MotorState.RAMPING ∧
      (handlePhysicalButtons (ButtonReads.stable u d) tUp tDown s).motorDirection
        = MotorDirection.BACKWARD ∧
      (handlePhysicalButtons (ButtonReads.stable u d) tUp tDown s).writes
        = s.writes ++ [ActuatorWrite.pin1 LOW, ActuatorWrite.pin2 HIGH] ∧
      (polls u d (handlePhysicalButtons (ButtonReads.stable u d) tUp tDown s) more).motorState
        = MotorState.RAMPING ∧
      (polls u d (handlePhysicalButtons (ButtonReads.stable u d) tUp tDown s) more).writes
        = s.writes ++ [ActuatorWrite.pin1 LOW, ActuatorWrite.pin2 HIGH]) := by
  have hu : (handlePhysicalButtons (ButtonReads.stable u d) tUp tDown s).btnUpActive = u := by
    rw [handlePhysicalButtons_eq, checkButtonDown_btnUpActive, checkButtonUp_btnUpActive]
  have hd : (handlePhysicalButtons (ButtonReads.stable u d) tUp tDown s).btnDownActive = d := by
    rw [handlePhysicalButtons_eq, checkButtonDown_btnDownActive]
  have hfix := handlePhysicalButtons_of_eq u d tUp2 tDown2 hu hd
  have hpolls := polls_of_eq u d hu hd more
  refine ⟨hu, hd, hfix, by rw [hfix], hpolls, ?_, ?_, ?_, ?_, ?_⟩
  · intro hflag hlevel
    subst hlevel
    rw [handlePhysicalButtons_eq, checkButtonUp_press d tUp hflag]
  · intro hflag hlevel
    subst hlevel
    rw [handlePhysicalButtons_eq,
      checkButtonDown_press u tDown ((checkButtonUp_btnDownActive _ _ _).trans hflag)]
  · intro hflagU hflagD
    exact handlePhysicalButtons_of_eq u d tUp tDown hflagU hflagD
  · intro hs hflag hlevel hother
    subst hlevel
    have h := handlePhysicalButtons_press_up d tUp tDown hs hflag hother
    rw [hpolls]
    exact ⟨h.1, h.2.1, h.2.2, h.1, h.2.2⟩
  · intro hs hflag hlevel hother
    subst hlevel
    have h := handlePhysicalButtons_press_down u tUp tDown hs hflag hother
    rw [hpolls]
    exact ⟨h.1, h.2.1, h.2.2, h.1, h.2.2⟩

theorem C18_poll_idempotent_witness :
    powerOn.motorState = MotorState.STOPPED ∧ powerOn.btnUpActive = false ∧
    ¬ (powerOn.btnDownActive = true ∧ false = false) ∧
    (handlePhysicalButtons (ButtonReads.stable true false) 0 0 powerOn).motorState
      = MotorState.RAMPING ∧
    (handlePhysicalButtons (ButtonReads.stable true false) 0 0 powerOn).motorDirection
      = MotorDirection.FORWARD ∧
    (handlePhysicalButtons (ButtonReads.stable true false) 0 0 powerOn).writes
      = powerOn.writes ++ [ActuatorWrite.pin1 HIGH, ActuatorWrite.pin2 LOW] ∧
    (polls true false (handlePhysicalButtons (ButtonReads.stable true false) 0 0 powerOn)
        [(5, 5), (9, 9), (2000, 2000)]).motorState = MotorState.RAMPING ∧
    (polls true false (handlePhysicalButtons (ButtonReads.stable true false) 0 0 powerOn)
        [(5, 5), (9, 9), (2000, 2000)]).writes
      = powerOn.writes ++ [ActuatorWrite.pin1 HIGH, ActuatorWrite.pin2 LOW] :=
  ⟨by decide, by decide, by decide,
   (C18_poll_idempotent powerOn true false 0 0 5 5
     [(5, 5), (9, 9), (2000, 2000)]).2.2.2.2.2.2.2.2.1
     (by decide) (by decide) rfl (by decide)⟩

/-- C19: the ramp is correct across the wrap of the millisecond counter.  For a start
from STOPPED at true time `t0` and a tick at true time `t` with `0 ≤ t - t0 < 2 ^ 32`,
`rampStartTime` is the 32-bit counter at `t0`, the computed `elapsedTime` is `t - t0` (also
when the counter at `t` is smaller than `rampStartTime`), and `updateMotor` writes
`floor((t - t0) * 255 / 1000)` and stays RAMPING when `t - t0 < 1000`, and writes 255 and
goes to RUNNING otherwise. -/
theorem C19_ramp_across_wrap (s₀ : Controller) (dir : MotorDirection) (t0 t : Nat)
    (hs : s₀.motorState = MotorState.STOPPED) (h0 : t0 ≤ t) (hb : t - t0 < 2 ^ 32) :
    (startMotor dir t0 s₀).rampStartTime = millis t0 ∧
    elapsedTime t (startMotor dir t0 s₀) = t - t0 ∧
    (t - t0 < 1000 →
      (updateMotor t (startMotor dir t0 s₀)).duty = (t - t0) * 255 / 1000 ∧
      (updateMotor t (startMotor dir t0 s₀)).writes
        = (startMotor dir t0 s₀).writes ++ [ActuatorWrite.duty ((t - t0) * 255 / 1000)] ∧
      (updateMotor t (startMotor dir t0 s₀)).motorState = MotorState.RAMPING) ∧
    (1000 ≤ t - t0 →
      (updateMotor t (startMotor dir t0 s₀)).duty = 255 ∧
      (updateMotor t (startMotor dir t0 s₀)).writes
        = (startMotor dir t0 s₀).writes ++ [ActuatorWrite.duty 255] ∧
      (updateMotor t (startMotor dir t0 s₀)).motorState = MotorState.RUNNING) := by
  have hst := startMotor_rampStartTime dir t0 hs
  have hramp := (startMotor_of_stopped dir t0 hs).1
  have hb' : t < t0 + 2 ^ 32 := by omega
  have h := updateMotor_on_ramp hramp hst h0 hb'
  exact ⟨hst, elapsedTime_eq hst h0 hb', h.1, h.2⟩

theorem C19_ramp_across_wrap_witness :
    powerOn.motorState = MotorState.STOPPED ∧ 4294967000 ≤ 4294967796 ∧
    4294967796 - 4294967000 < 2 ^ 32 ∧
    millis 4294967796 < (startMotor MotorDirection.FORWARD 4294967000 powerOn).rampStartTime ∧
    elapsedTime 4294967796 (startMotor MotorDirection.FORWARD 4294967000 powerOn)
      = 4294967796 - 4294967000 ∧
    (updateMotor 4294967796 (startMotor MotorDirection.FORWARD 4294967000 powerOn)).duty
      = (4294967796 - 4294967000) * 255 / 1000 :=
  ⟨by decide, by decide, by decide, by decide,
   (C19_ramp_across_wrap powerOn MotorDirection.FORWARD 4294967000 4294967796
     (by decide) (by decide) (by decide)).2.1,
   ((C19_ramp_across_wrap powerOn MotorDirection.FORWARD 4294967000 4294967796
     (by decide) (by decide) (by decide)).2.2.1 (by decide)).1⟩

/-- C20: the direction pins encode the recorded direction: in every state reachable from
power-on with `motorState` not STOPPED, the pins are (HIGH, LOW) if `motorDirection` is
FORWARD and (LOW, HIGH) if it is BACKWARD. -/
theorem C20_pins_encode_direction (cs : List Call)
    (h : (runCalls powerOn cs).motorState ≠ MotorState.STOPPED) :
    ((runCalls powerOn cs).motorDirection = MotorDirection.FORWARD →
      (runCalls powerOn cs).motor1Pin1 = HIGH ∧ (runCalls powerOn cs).motor1Pin2 = LOW) ∧
    ((runCalls powerOn cs).motorDirection = MotorDirection.BACKWARD →
      (runCalls powerOn cs).motor1Pin1 = LOW ∧ (runCalls powerOn cs).motor1Pin2 = HIGH) := by
  have hm := (Inv_runCalls cs Inv_powerOn).moving h
  constructor
  · intro hd
    rw [hd] at hm
    exact ⟨congrArg Prod.fst hm, congrArg Prod.snd hm⟩
  · intro hd
    rw [hd] at hm
    exact ⟨congrArg Prod.fst hm, congrArg Prod.snd hm⟩

theorem C20_pins_encode_direction_witness :
    (runCalls powerOn [Call.receive [98], Call.handleBluetoothCommands 3,
        Call.updateMotor 2000]).motorState ≠ MotorState.STOPPED ∧
    (runCalls powerOn [Call.receive [98], Call.handleBluetoothCommands 3,
        Call.updateMotor 2000]).motorDirection = MotorDirection.BACKWARD ∧
    (runCalls powerOn [Call.receive [98], Call.handleBluetoothCommands 3,
        Call.updateMotor 2000]).motor1Pin1 = LOW ∧
    (runCalls powerOn [Call.receive [98], Call.handleBluetoothCommands 3,
        Call.updateMotor 2000]).motor1Pin2 = HIGH :=
  ⟨by decide, by decide,
   (C20_pins_encode_direction [Call.receive [98], Call.handleBluetoothCommands 3,
     Call.updateMotor 2000] (by decide)).2 (by decide)⟩

end Desk
